import Mathlib

/-!
# gz-rendering: verification development

Shallow embedding of the parts of the rendering wrapper that the checked
properties are about:

* `Utils.cc`: `MinMax`, `Transform`, `screenScalingFactor`;
* `ogre/OgreLight.cc`: the light wrapper around the engine light;
* `ogre2/src/Ogre2IgnHlmsPbsPrivate.cc`: the listener chain, the per-object
  data buffer slot, `fillBuffersForV1` and `fillBuffersForV2`;
* `Visual.hh`: the geometry container of a visual.

The coordinates of `MinMax` and `Transform` range over an ordered type and
a field of exact numbers. Where the code converts between `double` and
`float` or divides (the attenuation values handed to the engine,
`screenScalingFactor`), values are floating-point values with rounding to
nearest, infinities and NaN.
-/

set_option autoImplicit false

namespace GzRendering

/-! ## Vectors (`ignition::math::Vector3d`) -/

/-- Three coordinates, as `ignition::math::Vector3d` exposes them through
`X()`, `Y()` and `Z()`. -/
structure Vector3 (α : Type) where
  X : α
  Y : α
  Z : α
deriving DecidableEq, Repr

namespace Vector3

variable {α : Type}

/-- Componentwise sum, `operator+` of the vector class. -/
def add [Add α] (a b : Vector3 α) : Vector3 α :=
  ⟨a.X + b.X, a.Y + b.Y, a.Z + b.Z⟩

instance [Add α] : Add (Vector3 α) := ⟨add⟩

end Vector3

/-! ## `Utils.cc`: `MinMax` -/

section MinMax

variable {α : Type} [LinearOrder α]

/-- Body of the `for` loop of `MinMax` for one vertex `v`: the six
comparisons, in source order, each overwriting one coordinate. -/
def MinMaxBody (acc : Vector3 α × Vector3 α) (v : Vector3 α) :
    Vector3 α × Vector3 α :=
  let mn := acc.1
  let mx := acc.2
  let mn := if mn.X > v.X then { mn with X := v.X } else mn
  let mx := if mx.X < v.X then { mx with X := v.X } else mx
  let mn := if mn.Y > v.Y then { mn with Y := v.Y } else mn
  let mx := if mx.Y < v.Y then { mx with Y := v.Y } else mx
  let mn := if mn.Z > v.Z then { mn with Z := v.Z } else mn
  let mx := if mx.Z < v.Z then { mx with Z := v.Z } else mx
  (mn, mx)

/-- Function `MinMax(_vertices, _min, _max)`: the pair returned is the content of the
two reference parameters after the call. An empty list returns at once and
leaves both untouched; otherwise both start at `_vertices[0]` and the loop
runs over the indices `1 .. size-1`. -/
def MinMax (vertices : List (Vector3 α)) (_min _max : Vector3 α) :
    Vector3 α × Vector3 α :=
  match vertices with
  | [] => (_min, _max)
  | v0 :: rest => rest.foldl MinMaxBody (v0, v0)

end MinMax

/-- The value `x` is the least element of the list `l`: it occurs in `l` and
is below every element. -/
def IsMinOf {α : Type} [LE α] (x : α) (l : List α) : Prop :=
  x ∈ l ∧ ∀ y ∈ l, x ≤ y

/-- The value `x` is the greatest element of the list `l`. -/
def IsMaxOf {α : Type} [LE α] (x : α) (l : List α) : Prop :=
  x ∈ l ∧ ∀ y ∈ l, y ≤ x

/-! ## `Utils.cc`: `Transform` -/

/-- The box as `Transform` observes it: `ignition::math::AxisAlignedBox`
through its accessors `Center()`, `XLength()`, `YLength()`, `ZLength()`
(library code outside the repository). -/
structure AxisAlignedBox (α : Type) where
  Center : Vector3 α
  XLength : α
  YLength : α
  ZLength : α

/-- A pose `ignition::math::Pose3d`: position `Pos()` and rotation `Rot()`.
The rotation type `Q` belongs to the math library. -/
structure Pose3 (α Q : Type) where
  Pos : Vector3 α
  Rot : Q

/-- The call `clear()` of `std::vector`: whatever the vector held, it is
empty afterwards. -/
def vectorClear {β : Type} (_v : List β) : List β := []

section Transform

variable {α Q : Type} [Field α]

/-- Function `Transform(_bbox, _worldPose, _vertices)`; the result is the content of
`_vertices` after the call. `rotate q v` stands for the library's
`Quaternion * Vector3` product `q * v`. The incoming `vertices` are cleared
before the eight `push_back`s. -/
def Transform (rotate : Q → Vector3 α → Vector3 α)
    (_bbox : AxisAlignedBox α) (_worldPose : Pose3 α Q)
    (_vertices : List (Vector3 α)) : List (Vector3 α) :=
  let center := _bbox.Center
  let v0 := center + ⟨-_bbox.XLength / 2, _bbox.YLength / 2, _bbox.ZLength / 2⟩
  let v1 := center + ⟨_bbox.XLength / 2, _bbox.YLength / 2, _bbox.ZLength / 2⟩
  let v2 := center + ⟨-_bbox.XLength / 2, -_bbox.YLength / 2, _bbox.ZLength / 2⟩
  let v3 := center + ⟨_bbox.XLength / 2, -_bbox.YLength / 2, _bbox.ZLength / 2⟩
  let v4 := center + ⟨-_bbox.XLength / 2, _bbox.YLength / 2, -_bbox.ZLength / 2⟩
  let v5 := center + ⟨_bbox.XLength / 2, _bbox.YLength / 2, -_bbox.ZLength / 2⟩
  let v6 := center + ⟨-_bbox.XLength / 2, -_bbox.YLength / 2, -_bbox.ZLength / 2⟩
  let v7 := center + ⟨_bbox.XLength / 2, -_bbox.YLength / 2, -_bbox.ZLength / 2⟩
  let v0 := rotate _worldPose.Rot v0 + _worldPose.Pos
  let v1 := rotate _worldPose.Rot v1 + _worldPose.Pos
  let v2 := rotate _worldPose.Rot v2 + _worldPose.Pos
  let v3 := rotate _worldPose.Rot v3 + _worldPose.Pos
  let v4 := rotate _worldPose.Rot v4 + _worldPose.Pos
  let v5 := rotate _worldPose.Rot v5 + _worldPose.Pos
  let v6 := rotate _worldPose.Rot v6 + _worldPose.Pos
  let v7 := rotate _worldPose.Rot v7 + _worldPose.Pos
  let _vertices := vectorClear _vertices
  _vertices ++ [v0] ++ [v1] ++ [v2] ++ [v3] ++ [v4] ++ [v5] ++ [v6] ++ [v7]

/-- The eight sign triples of the corners, in the order the property lists
them: (-,+,+), (+,+,+), (-,-,+), (+,-,+), (-,+,-), (+,+,-), (-,-,-),
(+,-,-). -/
def cornerSigns : List (Vector3 α) :=
  [⟨-1, 1, 1⟩, ⟨1, 1, 1⟩, ⟨-1, -1, 1⟩, ⟨1, -1, 1⟩,
   ⟨-1, 1, -1⟩, ⟨1, 1, -1⟩, ⟨-1, -1, -1⟩, ⟨1, -1, -1⟩]

/-- Corner of the box for the sign triple `s`, carried into world space:
`Rot * (center + s * (XLength/2, YLength/2, ZLength/2)) + Pos`, the product
`s * (..)` being componentwise. -/
def worldCorner (rotate : Q → Vector3 α → Vector3 α)
    (_bbox : AxisAlignedBox α) (_worldPose : Pose3 α Q) (s : Vector3 α) :
    Vector3 α :=
  rotate _worldPose.Rot
    (_bbox.Center +
      ⟨s.X * (_bbox.XLength / 2), s.Y * (_bbox.YLength / 2),
       s.Z * (_bbox.ZLength / 2)⟩) + _worldPose.Pos

end Transform

/-- Three vertices with integer coordinates on which `MinMax` is
evaluated. -/
def sampleVertices : List (Vector3 Int) :=
  [⟨3, 1, 2⟩, ⟨1, 5, 0⟩, ⟨2, -4, 7⟩]

/-! ## Floating-point values

The values of C++ `double` and `float` variables where the code converts
between the two or divides: a finite number, an infinity or NaN, with
rounding to nearest, ties to even. The sign of a zero is not represented. -/

/-- A floating-point value: a finite number, plus or minus infinity, or NaN. -/
inductive FpVal where
  | fin (q : ℚ)
  | inf (negative : Bool)
  | nan
deriving DecidableEq, Repr

instance (n : Nat) : OfNat FpVal n := ⟨.fin n⟩

/-- A binary floating-point format: the number of significand bits (hidden
bit included) and the least and greatest exponent of its normal numbers. -/
structure FpFormat where
  prec : Nat
  emin : Int
  emax : Int

/-- Single precision, the C++ `float` (and the engine's `Ogre::Real`). -/
def binary32 : FpFormat := ⟨24, -126, 127⟩

/-- Double precision, the C++ `double`. -/
def binary64 : FpFormat := ⟨53, -1022, 1023⟩

/-- The exponent of the leading bit of `n`, that is `⌊log2 n⌋` for `n ≥ 1`;
the first argument bounds the number of halvings. -/
def floorLog2Nat : Nat → Nat → Nat
  | 0, _ => 0
  | fuel + 1, n => if n < 2 then 0 else floorLog2Nat fuel (n / 2) + 1

/-- The exponent `⌊log2 (n / d)⌋` of the positive fraction `n / d`. -/
def floorLog2 (n d : Nat) : Int :=
  let k : Int := (floorLog2Nat n n : Int) - (floorLog2Nat d d : Int)
  if 0 ≤ k then
    if d * 2 ^ k.toNat ≤ n then k else k - 1
  else
    if d ≤ n * 2 ^ (-k).toNat then k else k - 1

/-- The integer nearest to `N / D`, a tie going to the even one. -/
def roundHalfEven (N D : Nat) : Nat :=
  let q := N / D
  let r := N % D
  if 2 * r < D then q
  else if D < 2 * r then q + 1
  else if q % 2 = 0 then q else q + 1

/-- Rounding of an exact number to the format: the significand is rounded to
`prec` bits at the exponent of the number (at `emin` for subnormal numbers),
and a result beyond the greatest finite number is an infinity. -/
def FpFormat.round (F : FpFormat) (x : ℚ) : FpVal :=
  if x = 0 then .fin 0
  else
    let n := x.num.natAbs
    let d := x.den
    let e : Int := max (floorLog2 n d) F.emin
    let s : Int := e - ((F.prec : Int) - 1)
    let m : Nat :=
      if 0 ≤ s then roundHalfEven n (d * 2 ^ s.toNat)
      else roundHalfEven (n * 2 ^ (-s).toNat) d
    let mag : ℚ :=
      if 0 ≤ s then ((m * 2 ^ s.toNat : Nat) : ℚ)
      else (m : ℚ) / ((2 ^ (-s).toNat : Nat) : ℚ)
    if ((2 ^ (F.emax + 1).toNat : Nat) : ℚ) ≤ mag then .inf (decide (x < 0))
    else .fin (if x < 0 then -mag else mag)

/-- Conversion of a floating-point value to the format (a C++ conversion
between `double` and `float`): a finite value is rounded, infinities and NaN
are kept. -/
def FpFormat.ofVal (F : FpFormat) : FpVal → FpVal
  | .fin q => F.round q
  | v => v

/-- Conversion of a C++ `int` to the format. -/
def FpFormat.ofInt (F : FpFormat) (i : Int) : FpVal :=
  F.round i

/-- Function `std::abs` on a floating-point value. -/
def FpVal.abs : FpVal → FpVal
  | .fin q => .fin |q|
  | .inf _ => .inf false
  | .nan => .nan

/-- Comparison `a <= b` of two floating-point values; false when either is
NaN. -/
def FpVal.le : FpVal → FpVal → Bool
  | .fin a, .fin b => decide (a ≤ b)
  | .fin _, .inf negative => !negative
  | .inf negative, .fin _ => negative
  | .inf negative, .inf negative2 => negative || !negative2
  | _, _ => false

/-- Difference `a - b` computed in the format. -/
def FpFormat.sub (F : FpFormat) : FpVal → FpVal → FpVal
  | .fin a, .fin b => F.round (a - b)
  | .fin _, .inf negative => .inf (!negative)
  | .inf negative, .fin _ => .inf negative
  | .inf negative, .inf negative2 =>
    if negative = negative2 then .nan else .inf negative
  | _, _ => .nan

/-- Product `a * b` computed in the format. -/
def FpFormat.mul (F : FpFormat) : FpVal → FpVal → FpVal
  | .fin a, .fin b => F.round (a * b)
  | .fin a, .inf negative =>
    if a = 0 then .nan else .inf (xor negative (decide (a < 0)))
  | .inf negative, .fin b =>
    if b = 0 then .nan else .inf (xor negative (decide (b < 0)))
  | .inf negative, .inf negative2 => .inf (xor negative negative2)
  | _, _ => .nan

/-- Quotient `a / b` computed in the format. A zero divisor counts as
positive: a non-zero dividend gives the infinity of the dividend's sign, and
`0 / 0` gives NaN. -/
def FpFormat.div (F : FpFormat) : FpVal → FpVal → FpVal
  | .fin a, .fin b =>
    if b = 0 then (if a = 0 then .nan else .inf (decide (a < 0)))
    else F.round (a / b)
  | .fin _, .inf _ => .fin 0
  | .inf negative, .fin b => .inf (xor negative (decide (b < 0)))
  | _, _ => .nan

/-- Conversion of a `double` to the engine's number type `Ogre::Real`, which
is single precision. -/
def toReal (v : FpVal) : FpVal :=
  binary32.ofVal v

/-! ## The engine (Ogre), as far as `OgreLight.cc` and the HLMS code use it

The engine is third-party code. Its objects are modelled by records holding
the values its setters store and its getters return. -/

/-- Class of an engine exception: `ItemIdentityException` is the one the
sources name; every other subclass of `Ogre::Exception` is `other`. -/
inductive OgreExceptionType where
  | ItemIdentityException
  | other (typeName : String)
deriving DecidableEq, Repr

/-- An `Ogre::Exception`: its dynamic class and what `getFullDescription()`
returns. -/
structure OgreException where
  type : OgreExceptionType
  fullDescription : String
deriving DecidableEq, Repr

/-- What a call of the wrapper can throw: an engine exception, the exception
of `gzthrow` (`gazebo::common::Exception`) carrying its message, or no C++
exception at all but a dereference of a null `ogreLight`. -/
inductive Thrown where
  | ogre (ex : OgreException)
  | gz (msg : String)
  | nullPointer
deriving DecidableEq, Repr

/-- Result of a call that may throw. -/
abbrev Call (β : Type) := Except Thrown β

deriving instance DecidableEq for Except

/-- Type `Ogre::Light::LightTypes`. -/
inductive LightTypes where
  | LT_POINT
  | LT_DIRECTIONAL
  | LT_SPOTLIGHT
deriving DecidableEq, Repr

/-- Type `Ogre::ColourValue`: red, green, blue and alpha. -/
structure ColourValue where
  r : ℚ
  g : ℚ
  b : ℚ
  a : ℚ
deriving DecidableEq, Repr

/-- Type `gazebo::common::Color`: red, green, blue and alpha. -/
structure Color where
  r : ℚ
  g : ℚ
  b : ℚ
  a : ℚ
deriving DecidableEq, Repr

/-- The engine's light object `Ogre::Light`: the values behind the accessors
that `OgreLight.cc` calls. -/
structure EngineLight where
  name : String
  type : LightTypes
  castShadows : Bool
  diffuse : ColourValue
  specular : ColourValue
  range : FpVal
  attenuationConst : FpVal
  attenuationLinear : FpVal
  attenuationQuad : FpVal
  direction : Vector3 FpVal
  spotInner : FpVal
  spotOuter : FpVal
  spotFalloff : FpVal
deriving DecidableEq, Repr

/-- The engine's scene manager `Ogre::SceneManager` as `CreateLight` uses it:
the state in which the engine hands out a new light (the engine's defaults
for type, shadow casting, colours, attenuation and so on). -/
structure SceneManager where
  newLight : EngineLight
deriving DecidableEq, Repr

/-- Engine call `SceneManager::createLight(name)`: a new light in the
engine's default state, carrying the given name. -/
def SceneManager.createLight (sm : SceneManager) (name : String) : EngineLight :=
  { sm.newLight with name := name }

namespace EngineLight

/-- Engine call `Light::setType`. -/
def setType (l : EngineLight) (t : LightTypes) : EngineLight :=
  { l with type := t }

/-- Engine call `MovableObject::setCastShadows`. -/
def setCastShadows (l : EngineLight) (enabled : Bool) : EngineLight :=
  { l with castShadows := enabled }

/-- Engine call `Light::setAttenuation(range, constant, linear, quadratic)`:
the four parameters have type `Ogre::Real`, so a `double` argument is
narrowed to single precision on the call; the four values are stored in this
order. -/
def setAttenuation (l : EngineLight) (range constant linear quadratic : FpVal) :
    EngineLight :=
  { l with range := toReal range, attenuationConst := toReal constant,
           attenuationLinear := toReal linear,
           attenuationQuad := toReal quadratic }

/-- Engine call `Light::setDiffuseColour(red, green, blue)`: the three-argument overload
assigns the red, green and blue components and has no alpha argument. -/
def setDiffuseColour (l : EngineLight) (red green blue : ℚ) : EngineLight :=
  { l with diffuse := { l.diffuse with r := red, g := green, b := blue } }

/-- Engine call `Light::setSpecularColour(red, green, blue)`, as `setDiffuseColour`. -/
def setSpecularColour (l : EngineLight) (red green blue : ℚ) : EngineLight :=
  { l with specular := { l.specular with r := red, g := green, b := blue } }

end EngineLight

/-- An engine scene node `Ogre::SceneNode`: the names of the movable objects
attached to it. -/
structure SceneNode where
  attachedObjects : List String
deriving DecidableEq, Repr

/-- Engine call `SceneNode::attachObject(obj)`. -/
def SceneNode.attachObject (n : SceneNode) (obj : EngineLight) : SceneNode :=
  { n with attachedObjects := n.attachedObjects ++ [obj.name] }

/-- The engine calls made inside the `try` block of `CreateLight`, in source
order. -/
inductive EngineCall where
  | createLight
  | setType
  | attachObject
  | setCastShadows
  | setAttenuation
deriving DecidableEq, Repr

/-- Which engine calls fail, and with which exception: `none` means the call
returns normally. -/
abbrev Faults := EngineCall → Option OgreException

/-- No engine call fails. -/
def noFaults : Faults := fun _ => none

/-- An engine call under a fault assignment: it throws the assigned
exception, or else has its normal effect `run`. -/
def engineCall {β : Type} (faults : Faults) (c : EngineCall) (run : Call β) :
    Call β :=
  match faults c with
  | some ex => .error (.ogre ex)
  | none => run

/-! ## `ogre/OgreLight.cc` -/

/-- Modelled from the spec: `OgreConversions::Convert(Ogre::ColourValue)` is
declared in `OgreConversions.hh`, which is not among the sources; the colour
conversion copies the four components. -/
def Convert (c : ColourValue) : Color :=
  ⟨c.r, c.g, c.b, c.a⟩

/-- State of an `OgreLight` object: its name (from `BaseObject`), the engine
scene manager reached through `scene` (from `OgreObject`), the engine light
(`NULL` is `none`), the light type fixed by the constructor, the four stored
attenuation values (`double`) and the engine node (from `OgreNode`). -/
structure OgreLight where
  name : String
  scene : SceneManager
  ogreLight : Option EngineLight
  ogreLightType : LightTypes
  attenRange : FpVal
  attenConstant : FpVal
  attenLinear : FpVal
  attenQuadratic : FpVal
  ogreNode : SceneNode
deriving DecidableEq, Repr

/-- The members that the constructors of `OgreLight.cc` do not set. -/
structure LightMembers where
  name : String
  scene : SceneManager
  attenRange : FpVal
  attenConstant : FpVal
  attenLinear : FpVal
  attenQuadratic : FpVal
  ogreNode : SceneNode
deriving DecidableEq, Repr

namespace OgreLight

/-- Dereference of `this->ogreLight`. -/
def light (l : OgreLight) : Call EngineLight :=
  match l.ogreLight with
  | some e => .ok e
  | none => .error .nullPointer

/-- Method `OgreLight::OgreLight()`: `ogreLight(NULL)`,
`ogreLightType(Ogre::Light::LT_POINT)`. -/
def new (m : LightMembers) : OgreLight :=
  { name := m.name, scene := m.scene, ogreLight := none,
    ogreLightType := .LT_POINT,
    attenRange := m.attenRange, attenConstant := m.attenConstant,
    attenLinear := m.attenLinear, attenQuadratic := m.attenQuadratic,
    ogreNode := m.ogreNode }

/-- Method `OgreLight::GetDiffuseColor`. -/
def GetDiffuseColor (l : OgreLight) : Call Color := do
  let e ← l.light
  let color := e.diffuse
  pure (Convert color)

/-- Method `OgreLight::SetDiffuseColor`. -/
def SetDiffuseColor (l : OgreLight) (_color : Color) : Call OgreLight := do
  let e ← l.light
  pure { l with ogreLight := some (e.setDiffuseColour _color.r _color.g _color.b) }

/-- Method `OgreLight::GetSpecularColor`. -/
def GetSpecularColor (l : OgreLight) : Call Color := do
  let e ← l.light
  let color := e.specular
  pure (Convert color)

/-- Method `OgreLight::SetSpecularColor`. -/
def SetSpecularColor (l : OgreLight) (_color : Color) : Call OgreLight := do
  let e ← l.light
  pure { l with ogreLight := some (e.setSpecularColour _color.r _color.g _color.b) }

/-- Method `OgreLight::UpdateAttenuation`: the stored `double` values are
passed to the engine as
`(attenRange, attenConstant, attenLinear, attenQuadratic)`. -/
def UpdateAttenuation (l : OgreLight) : Call OgreLight := do
  let e ← l.light
  pure { l with ogreLight := some (e.setAttenuation l.attenRange l.attenConstant
                                    l.attenLinear l.attenQuadratic) }

/-- Method `OgreLight::GetAttenuationConstant`: the engine accessor returns
`Ogre::Real`, which widens to the `double` result without change. -/
def GetAttenuationConstant (l : OgreLight) : Call FpVal := do
  let e ← l.light
  pure e.attenuationConst

/-- Method `OgreLight::SetAttenuationConstant`. -/
def SetAttenuationConstant (l : OgreLight) (_value : FpVal) : Call OgreLight :=
  UpdateAttenuation { l with attenConstant := _value }

/-- Method `OgreLight::GetAttenuationLinear`. -/
def GetAttenuationLinear (l : OgreLight) : Call FpVal := do
  let e ← l.light
  pure e.attenuationLinear

/-- Method `OgreLight::SetAttenuationLinear`. -/
def SetAttenuationLinear (l : OgreLight) (_value : FpVal) : Call OgreLight :=
  UpdateAttenuation { l with attenLinear := _value }

/-- Method `OgreLight::GetAttenuationQuadratic` (engine accessor
`getAttenuationQuadric`). -/
def GetAttenuationQuadratic (l : OgreLight) : Call FpVal := do
  let e ← l.light
  pure e.attenuationQuad

/-- Method `OgreLight::SetAttenuationQuadratic`. -/
def SetAttenuationQuadratic (l : OgreLight) (_value : FpVal) : Call OgreLight :=
  UpdateAttenuation { l with attenQuadratic := _value }

/-- Method `OgreLight::GetAttenuationRange`. -/
def GetAttenuationRange (l : OgreLight) : Call FpVal := do
  let e ← l.light
  pure e.range

/-- Method `OgreLight::SetAttenuationRange`. -/
def SetAttenuationRange (l : OgreLight) (_range : FpVal) : Call OgreLight :=
  UpdateAttenuation { l with attenRange := _range }

/-- Method `OgreLight::GetCastShadows`. -/
def GetCastShadows (l : OgreLight) : Call Bool := do
  let e ← l.light
  pure e.castShadows

/-- Method `OgreLight::SetCastShadows`. -/
def SetCastShadows (l : OgreLight) (_castShadows : Bool) : Call OgreLight := do
  let e ← l.light
  pure { l with ogreLight := some (e.setCastShadows _castShadows) }

/-- The `try` block of `OgreLight::CreateLight`: the five engine calls in
source order, each under the fault assignment. -/
def CreateLightTry (faults : Faults) (l : OgreLight) : Call OgreLight := do
  let sceneManager := l.scene
  let e ← engineCall faults .createLight (pure (sceneManager.createLight l.name))
  let l := { l with ogreLight := some e }
  let e ← engineCall faults .setType (do pure ((← l.light).setType l.ogreLightType))
  let l := { l with ogreLight := some e }
  let n ← engineCall faults .attachObject (do pure (l.ogreNode.attachObject (← l.light)))
  let l := { l with ogreNode := n }
  let e ← engineCall faults .setCastShadows (do pure ((← l.light).setCastShadows true))
  let l := { l with ogreLight := some e }
  engineCall faults .setAttenuation (UpdateAttenuation l)

/-- Method `OgreLight::CreateLight`: the handler `catch (Ogre::Exception &ex)`
replaces an engine exception by
`gzthrow("Unabled to create light: " << ex.getFullDescription())`; nothing
else is caught. -/
def CreateLight (faults : Faults) (l : OgreLight) : Call OgreLight :=
  match CreateLightTry faults l with
  | .error (.ogre ex) =>
      .error (.gz ("Unabled to create light: " ++ ex.fullDescription))
  | r => r

end OgreLight

/-- Method `OgreDirectionalLight::OgreDirectionalLight()`: the base constructor,
then `ogreLightType = Ogre::Light::LT_DIRECTIONAL`. -/
def OgreDirectionalLight.new (m : LightMembers) : OgreLight :=
  { OgreLight.new m with ogreLightType := .LT_DIRECTIONAL }

/-- Method `OgrePointLight::OgrePointLight()`: the base constructor, then
`ogreLightType = Ogre::Light::LT_POINT`. -/
def OgrePointLight.new (m : LightMembers) : OgreLight :=
  { OgreLight.new m with ogreLightType := .LT_POINT }

/-- Method `OgreSpotLight::OgreSpotLight()`: the base constructor, then
`ogreLightType = Ogre::Light::LT_SPOTLIGHT`. -/
def OgreSpotLight.new (m : LightMembers) : OgreLight :=
  { OgreLight.new m with ogreLightType := .LT_SPOTLIGHT }

/-- Engine call `Light::setDirection`, on a vector of `Ogre::Real`. -/
def EngineLight.setDirection (l : EngineLight) (d : Vector3 FpVal) : EngineLight :=
  { l with direction := d }

/-- Engine call `Light::setSpotlightInnerAngle`, the angle in radians as
`Ogre::Real`. -/
def EngineLight.setSpotlightInnerAngle (l : EngineLight) (a : FpVal) : EngineLight :=
  { l with spotInner := a }

/-- Engine call `Light::setSpotlightOuterAngle`, the angle in radians as
`Ogre::Real`. -/
def EngineLight.setSpotlightOuterAngle (l : EngineLight) (a : FpVal) : EngineLight :=
  { l with spotOuter := a }

/-- Engine call `Light::setSpotlightFalloff`: the parameter has type
`Ogre::Real`, so a `double` argument is narrowed on the call. -/
def EngineLight.setSpotlightFalloff (l : EngineLight) (f : FpVal) : EngineLight :=
  { l with spotFalloff := toReal f }

/-- Methods `OgreDirectionalLight::SetDirection` and
`OgreSpotLight::SetDirection` (the same body); the vector conversion of
`OgreConversions` turns the three `double` components into `Ogre::Real`. -/
def OgreLight.SetDirection (l : OgreLight) (_dir : Vector3 FpVal) : Call OgreLight := do
  let e ← l.light
  let dir : Vector3 FpVal := ⟨toReal _dir.X, toReal _dir.Y, toReal _dir.Z⟩
  pure { l with ogreLight := some (e.setDirection dir) }

/-- Method `OgreSpotLight::SetInnerAngle`; the angle conversion of
`OgreConversions` turns the angle in radians into `Ogre::Real`. -/
def OgreLight.SetInnerAngle (l : OgreLight) (_angle : FpVal) : Call OgreLight := do
  let e ← l.light
  pure { l with ogreLight := some (e.setSpotlightInnerAngle (toReal _angle)) }

/-- Method `OgreSpotLight::SetOuterAngle`. -/
def OgreLight.SetOuterAngle (l : OgreLight) (_angle : FpVal) : Call OgreLight := do
  let e ← l.light
  pure { l with ogreLight := some (e.setSpotlightOuterAngle (toReal _angle)) }

/-- Method `OgreSpotLight::SetFalloff`. -/
def OgreLight.SetFalloff (l : OgreLight) (_falloff : FpVal) : Call OgreLight := do
  let e ← l.light
  pure { l with ogreLight := some (e.setSpotlightFalloff _falloff) }

/-- The mutating methods of `OgreLight.cc` that a client can call on a light
once it exists. -/
inductive LightOp where
  | SetDiffuseColor (c : Color)
  | SetSpecularColor (c : Color)
  | SetAttenuationConstant (v : FpVal)
  | SetAttenuationLinear (v : FpVal)
  | SetAttenuationQuadratic (v : FpVal)
  | SetAttenuationRange (v : FpVal)
  | SetCastShadows (b : Bool)
  | SetDirection (d : Vector3 FpVal)
  | SetInnerAngle (a : FpVal)
  | SetOuterAngle (a : FpVal)
  | SetFalloff (f : FpVal)
deriving DecidableEq, Repr

/-- Effect of one mutating method on the light. -/
def LightOp.apply (op : LightOp) (l : OgreLight) : Call OgreLight :=
  match op with
  | .SetDiffuseColor c => l.SetDiffuseColor c
  | .SetSpecularColor c => l.SetSpecularColor c
  | .SetAttenuationConstant v => l.SetAttenuationConstant v
  | .SetAttenuationLinear v => l.SetAttenuationLinear v
  | .SetAttenuationQuadratic v => l.SetAttenuationQuadratic v
  | .SetAttenuationRange v => l.SetAttenuationRange v
  | .SetCastShadows b => l.SetCastShadows b
  | .SetDirection d => l.SetDirection d
  | .SetInnerAngle a => l.SetInnerAngle a
  | .SetOuterAngle a => l.SetOuterAngle a
  | .SetFalloff f => l.SetFalloff f

/-- A created light: the state after a `CreateLight` that returned normally,
followed by any number of calls of the mutating methods. -/
inductive Created : OgreLight → Prop where
  | create (faults : Faults) (l0 l : OgreLight) :
      OgreLight.CreateLight faults l0 = .ok l → Created l
  | call (op : LightOp) (l l' : OgreLight) :
      Created l → op.apply l = .ok l' → Created l'

/-- The engine light exists and its four attenuation values are the stored
ones as the engine holds them, in single precision. -/
def AttenuationInSync (l : OgreLight) : Prop :=
  ∃ e, l.ogreLight = some e ∧ e.range = toReal l.attenRange ∧
    e.attenuationConst = toReal l.attenConstant ∧
    e.attenuationLinear = toReal l.attenLinear ∧
    e.attenuationQuad = toReal l.attenQuadratic

/-- The exception of the first engine call of `CreateLight`, in source order,
that fails. -/
def firstFault (faults : Faults) : Option OgreException :=
  [EngineCall.createLight, EngineCall.setType, EngineCall.attachObject,
   EngineCall.setCastShadows, EngineCall.setAttenuation].findSome? faults

/-- The four light classes of `OgreLight.cc`: the `OgreLight` base,
`OgreDirectionalLight`, `OgrePointLight` and `OgreSpotLight`. -/
inductive LightClass where
  | base
  | directional
  | point
  | spot
deriving DecidableEq, Repr

/-- Construction of a light of the given class. -/
def LightClass.construct (cls : LightClass) (m : LightMembers) : OgreLight :=
  match cls with
  | .base => OgreLight.new m
  | .directional => OgreDirectionalLight.new m
  | .point => OgrePointLight.new m
  | .spot => OgreSpotLight.new m

/-- The engine light type that the property assigns to each class:
directional for `OgreDirectionalLight`, point for `OgrePointLight` and for
the `OgreLight` base, spotlight for `OgreSpotLight`. -/
def LightClass.expectedType (cls : LightClass) : LightTypes :=
  match cls with
  | .base => .LT_POINT
  | .directional => .LT_DIRECTIONAL
  | .point => .LT_POINT
  | .spot => .LT_SPOTLIGHT

/-- A scene manager whose new lights are point lights that do not cast
shadows, with white diffuse and black specular colour (alpha 1) and
attenuation `100000, 1, 0, 0`. -/
def sampleScene : SceneManager :=
  { newLight :=
      { name := "", type := .LT_POINT, castShadows := false,
        diffuse := ⟨1, 1, 1, 1⟩, specular := ⟨0, 0, 0, 1⟩,
        range := 100000, attenuationConst := 1, attenuationLinear := 0,
        attenuationQuad := 0, direction := ⟨0, 0, 1⟩,
        spotInner := 0, spotOuter := 0, spotFalloff := 1 } }

/-- Members of a sample light: stored attenuation `(30, 1/2, 1/4, 1/8)` and a
node with nothing attached. -/
def sampleMembers : LightMembers :=
  { name := "lamp", scene := sampleScene, attenRange := 30,
    attenConstant := .fin (1 / 2), attenLinear := .fin (1 / 4),
    attenQuadratic := .fin (1 / 8), ogreNode := ⟨[]⟩ }

/-- The state that `CreateLight` leaves for a spot light built from
`sampleMembers`. -/
def sampleCreated : OgreLight :=
  { name := "lamp",
    scene := sampleScene,
    ogreLight := some
      { name := "lamp", type := .LT_SPOTLIGHT, castShadows := true,
        diffuse := ⟨1, 1, 1, 1⟩, specular := ⟨0, 0, 0, 1⟩,
        range := 30, attenuationConst := .fin (1 / 2),
        attenuationLinear := .fin (1 / 4), attenuationQuad := .fin (1 / 8),
        direction := ⟨0, 0, 1⟩,
        spotInner := 0, spotOuter := 0, spotFalloff := 1 },
    ogreLightType := .LT_SPOTLIGHT,
    attenRange := 30, attenConstant := .fin (1 / 2),
    attenLinear := .fin (1 / 4), attenQuadratic := .fin (1 / 8),
    ogreNode := ⟨["lamp"]⟩ }

/-- Members of a light whose stored constant attenuation is `2^24 + 1`, a
`double` that single precision does not hold. -/
def wideMembers : LightMembers :=
  { sampleMembers with attenConstant := 16777217 }

/-- The state that `CreateLight` leaves for a point light built from
`wideMembers`: the engine holds `2^24` as constant attenuation. -/
def wideCreated : OgreLight :=
  { name := "lamp",
    scene := sampleScene,
    ogreLight := some
      { name := "lamp", type := .LT_POINT, castShadows := true,
        diffuse := ⟨1, 1, 1, 1⟩, specular := ⟨0, 0, 0, 1⟩,
        range := 30, attenuationConst := 16777216,
        attenuationLinear := .fin (1 / 4), attenuationQuad := .fin (1 / 8),
        direction := ⟨0, 0, 1⟩,
        spotInner := 0, spotOuter := 0, spotFalloff := 1 },
    ogreLightType := .LT_POINT,
    attenRange := 30, attenConstant := 16777217,
    attenLinear := .fin (1 / 4), attenQuadratic := .fin (1 / 8),
    ogreNode := ⟨["lamp"]⟩ }

/-- A fault assignment: attaching the light to its node fails. -/
def attachFails : Faults := fun c =>
  if c = EngineCall.attachObject then
    some ⟨.other "InvalidParametersException", "Object already attached"⟩
  else none

/-! ## `ogre2/src/Ogre2IgnHlmsPbsPrivate.cc` -/

/-- Modelled from the spec: the enumeration `IgnOgreRenderingMode` is declared
outside the sources; `IORM_SOLID_COLOR` is the enumerator the code names, and
`other` stands for every other enumerator. -/
inductive IgnOgreRenderingMode where
  | IORM_SOLID_COLOR
  | other (code : Nat)
deriving DecidableEq, Repr

/-- Type `Ogre::Vector4`. -/
structure Vector4 where
  x : ℚ
  y : ℚ
  z : ℚ
  w : ℚ
deriving DecidableEq, Repr

/-- Constant `kPerObjectDataBufferSlot = 4u`. -/
def kPerObjectDataBufferSlot : Nat := 4

/-- A call made on one customization listener, with the arguments passed.
Pointers (shadow node, scene manager, HLMS, command buffer, datablock, pass
buffer) are handles. -/
inductive ListenerCall where
  | preparePassHash (_shadowNode : Nat) (_casterPass _dualParaboloid : Bool)
      (_sceneManager _hlms : Nat)
  | getPassBufferSize (_shadowNode : Nat) (_casterPass _dualParaboloid : Bool)
      (_sceneManager : Nat)
  | preparePassBuffer (_shadowNode : Nat) (_casterPass _dualParaboloid : Bool)
      (_sceneManager _passBufferPtr : Nat)
  | hlmsTypeChanged (_casterPass : Bool) (_commandBuffer _datablock : Nat)
deriving DecidableEq, Repr

/-- What a call of the HLMS class does to its surroundings, in the order it
happens: the base class implementation ran, a message went to `ignerr`, the
per-object data buffer was mapped for an instance at a slot, or a value was
written through the mapped pointer at an index; further, a call went to the
listener with the given identity, `_setProperty` was called on the HLMS
passed as argument, `setProperty` was called on the object itself, or the
per-object data buffer was bound at a slot. -/
inductive HlmsEffect where
  | baseFillBuffersForV2
  | ignerr (msg : String)
  | MapObjectDataBufferFor (instanceIdx : Nat) (slot : Nat)
  | write (index : Nat) (value : ℚ)
  | baseFillBuffersForV1
  | baseNotifyPropertiesMergedPreGenerationStep
  | listener (id : Nat) (call : ListenerCall)
  | hlmsSetProperty (_hlms : Nat) (key : String) (value : Int)
  | setProperty (key : String) (value : Int)
  | BindObjectDataBuffer (_commandBuffer : Nat) (slot : Nat)
deriving DecidableEq, Repr

/-- Outcome of a call: the effects that happened and either the returned
value or the exception that left the call. -/
structure HlmsOutcome (β : Type) where
  effects : List HlmsEffect
  result : Except OgreException β

/-- The text sent to `ignerr` by the handler of `fillBuffersForV2`. -/
def missingParameterMessage : String :=
  "A module is trying to render an object without " ++
  "specifying a parameter. Please report this bug at " ++
  "https://github.com/ignitionrobotics/ign-rendering/issues\n"

/-- Method `Ogre2IgnHlmsPbs::fillBuffersForV2`. The base class call
`HlmsPbs::fillBuffersForV2` is given by its outcome `baseFill` and the
renderable by its `getCustomParameter`. The handler
`catch (ItemIdentityException &)` logs and rethrows the caught exception with a bare `throw`; any
other exception leaves the call without passing through the handler. -/
def fillBuffersForV2 (ignOgreRenderingMode : IgnOgreRenderingMode)
    (baseFill : Except OgreException Nat)
    (getCustomParameter : Nat → Except OgreException Vector4)
    (_casterPass : Bool) : HlmsOutcome Nat :=
  match baseFill with
  | .error ex => ⟨[.baseFillBuffersForV2], .error ex⟩
  | .ok instanceIdx =>
    if ignOgreRenderingMode = .IORM_SOLID_COLOR ∧ ¬ _casterPass = true then
      match getCustomParameter 1 with
      | .error ex =>
        if ex.type = .ItemIdentityException then
          ⟨[.baseFillBuffersForV2, .ignerr missingParameterMessage], .error ex⟩
        else
          ⟨[.baseFillBuffersForV2], .error ex⟩
      | .ok customParam =>
        ⟨[.baseFillBuffersForV2,
          .MapObjectDataBufferFor instanceIdx kPerObjectDataBufferSlot,
          .write 0 customParam.x, .write 1 customParam.y,
          .write 2 customParam.z, .write 3 customParam.w],
         .ok instanceIdx⟩
    else
      ⟨[.baseFillBuffersForV2], .ok instanceIdx⟩

/-- The effect maps the per-object data buffer or writes through it. -/
def HlmsEffect.touchesObjectData : HlmsEffect → Bool
  | .MapObjectDataBufferFor _ _ => true
  | .write _ _ => true
  | _ => false

/-- A renderable on which no custom parameter was set: every read raises
`ItemIdentityException`. -/
def noCustomParameter : Nat → Except OgreException Vector4 := fun _ =>
  .error ⟨.ItemIdentityException, "Parameter at the given index was not found."⟩

/-! ## `Utils.cc`: `screenScalingFactor` -/

/-- The X display as `screenScalingFactor` observes it:
`XResourceManagerString(disp)` (`none` for a null pointer),
`XrmGetResource(db, name, class, ..)` giving `none` when it does not return
`True` and otherwise `value.addr` (`none` for a null address), and the
height of screen 0 in pixels and in millimetres. -/
structure XDisplay where
  XResourceManagerString : Option String
  XrmGetResource : String → String → String → Option (Option String)
  DisplayHeight : Int
  DisplayHeightMM : Int

/-- Function `ignition::math::equal(a, b, epsilon)` of the math library at
type `float`: the difference `a - b` is formed in single precision, and the
result is `std::abs(diff) <= epsilon`. -/
def mathEqualEps (a b epsilon : FpVal) : Bool :=
  let diff := (binary32.sub a b).abs
  diff.le epsilon

/-- The default tolerance of `ignition::math::equal` at type `float`: the
`double` literal `1e-6` converted to `float`. -/
def defaultEpsilon : FpVal :=
  binary32.ofVal (binary64.round (1 / 1000000))

/-- Function `ignition::math::equal(a, b)` with the library's default
tolerance. -/
def mathEqual (a b : FpVal) : Bool :=
  mathEqualEps a b defaultEpsilon

/-- Function `screenScalingFactor()`, the `__linux__` build. `atof` is the C
library function, giving a `double`. The variables `ratio`, `dpiDesktop` and
`yDpiRes` are `float`; the resolution DPI is computed in `double` (the
literal `25.4` is a `double`) and converted on the assignment. -/
def screenScalingFactor (atof : String → FpVal) (disp : XDisplay) : FpVal :=
  let ratio : FpVal := 1
  match disp.XResourceManagerString with
  | none => ratio
  | some resourceString =>
    let dpiDesktop : FpVal := 0
    let db := resourceString
    let dpiDesktop :=
      match disp.XrmGetResource db "Xft.dpi" "String" with
      | some (some addr) => binary32.ofVal (atof addr)
      | _ => dpiDesktop
    let yDpiRes : FpVal :=
      binary32.ofVal
        (binary64.div
          (binary64.mul (binary64.ofInt disp.DisplayHeight)
            (binary64.round (254 / 10)))
          (binary64.ofInt disp.DisplayHeightMM))
    if (!mathEqual dpiDesktop 0 && !mathEqual yDpiRes 0) = true then
      binary32.div dpiDesktop yDpiRes
    else
      ratio

/-- The desktop DPI read from the `Xft.dpi` resource, as a `float`: `none`
when the resource manager string is absent or the resource is absent or has
no value. -/
def desktopDpi (atof : String → FpVal) (disp : XDisplay) : Option FpVal :=
  match disp.XResourceManagerString with
  | none => none
  | some resourceString =>
    match disp.XrmGetResource resourceString "Xft.dpi" "String" with
    | some (some addr) => some (binary32.ofVal (atof addr))
    | _ => none

/-- The resolution DPI `(display height in pixels * 25.4) / (display height
in millimetres)`, computed in `double` and held as a `float`. -/
def resolutionDpi (disp : XDisplay) : FpVal :=
  binary32.ofVal
    (binary64.div
      (binary64.mul (binary64.ofInt disp.DisplayHeight)
        (binary64.round (254 / 10)))
      (binary64.ofInt disp.DisplayHeightMM))

/-- A display of 1080 pixels on 286 millimetres whose resource database
holds `Xft.dpi: 0.0000005`. -/
def tinyDpiDisplay : XDisplay :=
  { XResourceManagerString := some "Xft.dpi:\t0.0000005\n",
    XrmGetResource := fun _ name _ =>
      if name = "Xft.dpi" then some (some "0.0000005") else none,
    DisplayHeight := 1080,
    DisplayHeightMM := 286 }

/-- A display of 1080 pixels on 286 millimetres whose resource database
holds `Xft.dpi: 192`. -/
def hiDpiDisplay : XDisplay :=
  { XResourceManagerString := some "Xft.dpi:\t192\n",
    XrmGetResource := fun _ name _ =>
      if name = "Xft.dpi" then some (some "192") else none,
    DisplayHeight := 1080,
    DisplayHeightMM := 286 }

/-- A display of 1080 pixels that reports a height of 0 millimetres, with
`Xft.dpi: 192`. -/
def zeroHeightDisplay : XDisplay :=
  { XResourceManagerString := some "Xft.dpi:\t192\n",
    XrmGetResource := fun _ name _ =>
      if name = "Xft.dpi" then some (some "192") else none,
    DisplayHeight := 1080,
    DisplayHeightMM := 0 }

/-- The values of `atof` on the strings of the sample displays: the `double`
nearest to `0.0000005`, and `192`. -/
def sampleAtof (s : String) : FpVal :=
  if s = "0.0000005" then binary64.round (1 / 2000000)
  else if s = "192" then 192 else 0

/-! ## `Visual.hh`: the geometries of a visual -/

/-- Modelled from the spec: the methods of `Visual` are pure virtual in
`Visual.hh` and their implementation is not among the sources. A visual keeps
the geometries attached to it, identified by number, in attachment order. -/
structure Visual where
  geometries : List Nat
deriving DecidableEq, Repr

namespace Visual

/-- Modelled from the spec: `GeometryCount()`, the number of geometries
attached to this visual. -/
def GeometryCount (v : Visual) : Nat :=
  v.geometries.length

/-- Modelled from the spec: `HasGeometry(_geometry)`, true if the given
geometry is attached to this visual. -/
def HasGeometry (v : Visual) (_geometry : Nat) : Bool :=
  v.geometries.contains _geometry

/-- Modelled from the spec: `GeometryByIndex(_index)`, the geometry at the
given index; if no geometry exists at the index, NULL (`none`) is returned. -/
def GeometryByIndex (v : Visual) (_index : Nat) : Option Nat :=
  v.geometries.get? _index

/-- Modelled from the spec: `AddGeometry(_geometry)` adds the given geometry
to this visual; if it is already attached, no work is done. -/
def AddGeometry (v : Visual) (_geometry : Nat) : Visual :=
  if v.HasGeometry _geometry then v
  else { v with geometries := v.geometries ++ [_geometry] }

end Visual

/-! ## `Ogre2IgnHlmsPbsPrivate.cc`: the listener chain -/

/-- A customization listener (`Ogre::HlmsListener`): its identity and the
values its two value-returning callbacks give. -/
structure HlmsListener where
  id : Nat
  getPassBufferSize : Nat → Bool → Bool → Nat → Nat
  preparePassBuffer : Nat → Bool → Bool → Nat → Nat → Nat

/-- A value as the C++ type `uint32` holds it. -/
def toUint32 (n : Nat) : Nat := n % 2 ^ 32

/-- State of an `Ogre2IgnHlmsPbs` object as the methods use it: the
registered listeners in registration order and the rendering mode. -/
structure Ogre2IgnHlmsPbs where
  customizations : List HlmsListener
  ignOgreRenderingMode : IgnOgreRenderingMode

/-- Effects of a call together with the value it returns. -/
structure HlmsTrace (β : Type) where
  effects : List HlmsEffect
  value : β

namespace Ogre2IgnHlmsPbs

/-- Constructor `Ogre2IgnHlmsPbs::Ogre2IgnHlmsPbs`: the vector of listeners
starts empty and receives the two `push_back`s in source order. The rendering
mode is not set by the constructor body. -/
def new (ignOgreRenderingMode : IgnOgreRenderingMode)
    (_sphericalClipMinDistance terraShadows : HlmsListener) : Ogre2IgnHlmsPbs :=
  let customizations : List HlmsListener := []
  let customizations := customizations ++ [_sphericalClipMinDistance]
  let customizations := customizations ++ [terraShadows]
  { customizations := customizations, ignOgreRenderingMode := ignOgreRenderingMode }

/-- Method `Ogre2IgnHlmsPbs::preparePassHash`; the result is the sequence of
effects. -/
def preparePassHash (self : Ogre2IgnHlmsPbs) (_shadowNode : Nat)
    (_casterPass _dualParaboloid : Bool) (_sceneManager _hlms : Nat) :
    List HlmsEffect :=
  let effects : List HlmsEffect :=
    if ¬ _casterPass = true ∧ self.ignOgreRenderingMode = .IORM_SOLID_COLOR then
      [.hlmsSetProperty _hlms "ign_render_solid_color" 1]
    else []
  self.customizations.foldl
    (fun effects listener =>
      effects ++ [.listener listener.id
        (.preparePassHash _shadowNode _casterPass _dualParaboloid _sceneManager _hlms)])
    effects

/-- Method `Ogre2IgnHlmsPbs::getPassBufferSize`: `bufferSize` is a `uint32`
starting at 0 and each listener's `uint32` result is added with `+=`. -/
def getPassBufferSize (self : Ogre2IgnHlmsPbs) (_shadowNode : Nat)
    (_casterPass _dualParaboloid : Bool) (_sceneManager : Nat) : HlmsTrace Nat :=
  let bufferSize : Nat := 0
  self.customizations.foldl
    (fun acc listener =>
      ⟨acc.effects ++ [.listener listener.id
          (.getPassBufferSize _shadowNode _casterPass _dualParaboloid _sceneManager)],
       toUint32 (acc.value + toUint32
          (listener.getPassBufferSize _shadowNode _casterPass _dualParaboloid
            _sceneManager))⟩)
    ⟨[], bufferSize⟩

/-- Method `Ogre2IgnHlmsPbs::preparePassBuffer`: each listener's result is
assigned to `_passBufferPtr`, which the next listener receives. -/
def preparePassBuffer (self : Ogre2IgnHlmsPbs) (_shadowNode : Nat)
    (_casterPass _dualParaboloid : Bool) (_sceneManager _passBufferPtr : Nat) :
    HlmsTrace Nat :=
  self.customizations.foldl
    (fun acc listener =>
      ⟨acc.effects ++ [.listener listener.id
          (.preparePassBuffer _shadowNode _casterPass _dualParaboloid _sceneManager
            acc.value)],
       listener.preparePassBuffer _shadowNode _casterPass _dualParaboloid
          _sceneManager acc.value⟩)
    ⟨[], _passBufferPtr⟩

/-- Method `Ogre2IgnHlmsPbs::notifyPropertiesMergedPreGenerationStep`. -/
def notifyPropertiesMergedPreGenerationStep (_self : Ogre2IgnHlmsPbs) :
    List HlmsEffect :=
  [.baseNotifyPropertiesMergedPreGenerationStep,
   .setProperty "IgnPerObjectDataSlot" kPerObjectDataBufferSlot]

/-- Method `Ogre2IgnHlmsPbs::hlmsTypeChanged`: the listeners first, then the
early `return` on a caster pass or outside solid-colour mode, then the
binding of the per-object data buffer. -/
def hlmsTypeChanged (self : Ogre2IgnHlmsPbs) (_casterPass : Bool)
    (_commandBuffer _datablock : Nat) : List HlmsEffect :=
  let effects : List HlmsEffect :=
    self.customizations.foldl
      (fun effects listener =>
        effects ++ [.listener listener.id
          (.hlmsTypeChanged _casterPass _commandBuffer _datablock)])
      []
  if _casterPass = true ∨ self.ignOgreRenderingMode ≠ .IORM_SOLID_COLOR then
    effects
  else
    effects ++ [.BindObjectDataBuffer _commandBuffer kPerObjectDataBufferSlot]

end Ogre2IgnHlmsPbs

/-- Method `Ogre2IgnHlmsPbs::fillBuffersForV1`. The base class call
`HlmsPbs::fillBuffersForV1` is given by its outcome `baseFill` and the
renderable by its `getCustomParameter`; there is no handler, so an exception
of `getCustomParameter` leaves the call as it is. -/
def fillBuffersForV1 (ignOgreRenderingMode : IgnOgreRenderingMode)
    (baseFill : Except OgreException Nat)
    (getCustomParameter : Nat → Except OgreException Vector4)
    (_casterPass : Bool) : HlmsOutcome Nat :=
  match baseFill with
  | .error ex => ⟨[.baseFillBuffersForV1], .error ex⟩
  | .ok instanceIdx =>
    if ignOgreRenderingMode = .IORM_SOLID_COLOR ∧ ¬ _casterPass = true then
      match getCustomParameter 1 with
      | .error ex => ⟨[.baseFillBuffersForV1], .error ex⟩
      | .ok customParam =>
        ⟨[.baseFillBuffersForV1,
          .MapObjectDataBufferFor instanceIdx kPerObjectDataBufferSlot,
          .write 0 customParam.x, .write 1 customParam.y,
          .write 2 customParam.z, .write 3 customParam.w],
         .ok instanceIdx⟩
    else
      ⟨[.baseFillBuffersForV1], .ok instanceIdx⟩

/-- A listener standing for the spherical-clip-min-distance customization:
identity 1, 16 bytes of pass buffer, pointer advanced by 4. -/
def sphericalClipListener : HlmsListener :=
  { id := 1, getPassBufferSize := fun _ _ _ _ => 16,
    preparePassBuffer := fun _ _ _ _ p => p + 4 }

/-- A listener standing for the terra-shadows customization: identity 2,
`2^32 - 8` bytes of pass buffer, pointer doubled. -/
def terraShadowsListener : HlmsListener :=
  { id := 2, getPassBufferSize := fun _ _ _ _ => 2 ^ 32 - 8,
    preparePassBuffer := fun _ _ _ _ p => 2 * p }

/-- The HLMS object built by the constructor from the two sample listeners,
in solid-colour mode. -/
def sampleHlms : Ogre2IgnHlmsPbs :=
  Ogre2IgnHlmsPbs.new .IORM_SOLID_COLOR sphericalClipListener terraShadowsListener

/-- A renderable whose custom parameter 1 is `(1, 2, 3, 4)`. -/
def sampleCustomParameter : Nat → Except OgreException Vector4 := fun _ =>
  .ok ⟨1, 2, 3, 4⟩

/-! ## `Visual.hh`: removal of a geometry -/

/-- Modelled from the spec: `RemoveGeometry(_geometry)` removes the given
geometry from this visual and returns it; if it is not attached to this
visual, no work is done (and NULL, `none`, is returned). -/
def Visual.RemoveGeometry (v : Visual) (_geometry : Nat) : Option Nat × Visual :=
  if v.HasGeometry _geometry then
    (some _geometry, { v with geometries := v.geometries.erase _geometry })
  else (none, v)

/-! ## Theorems -/

section MinMaxProofs

variable {α : Type} [LinearOrder α]

theorem MinMaxBody_fst (acc : Vector3 α × Vector3 α) (v : Vector3 α) :
    (MinMaxBody acc v).1 =
      ⟨min acc.1.X v.X, min acc.1.Y v.Y, min acc.1.Z v.Z⟩ := by
  obtain ⟨⟨a, b, c⟩, mx⟩ := acc
  obtain ⟨x, y, z⟩ := v
  simp only [MinMaxBody, gt_iff_lt]
  rcases le_or_lt a x with h1 | h1 <;> rcases le_or_lt b y with h2 | h2 <;>
    rcases le_or_lt c z with h3 | h3 <;>
    simp [h1, h2, h3, not_lt.mpr, le_of_lt]

theorem MinMaxBody_snd (acc : Vector3 α × Vector3 α) (v : Vector3 α) :
    (MinMaxBody acc v).2 =
      ⟨max acc.2.X v.X, max acc.2.Y v.Y, max acc.2.Z v.Z⟩ := by
  obtain ⟨mn, ⟨a, b, c⟩⟩ := acc
  obtain ⟨x, y, z⟩ := v
  simp only [MinMaxBody, gt_iff_lt]
  rcases le_or_lt x a with h1 | h1 <;> rcases le_or_lt y b with h2 | h2 <;>
    rcases le_or_lt z c with h3 | h3 <;>
    simp [h1, h2, h3, not_lt.mpr, le_of_lt]

theorem foldl_MinMaxBody (rest : List (Vector3 α))
    (acc : Vector3 α × Vector3 α) :
    rest.foldl MinMaxBody acc =
      (⟨(rest.map Vector3.X).foldl min acc.1.X,
        (rest.map Vector3.Y).foldl min acc.1.Y,
        (rest.map Vector3.Z).foldl min acc.1.Z⟩,
       ⟨(rest.map Vector3.X).foldl max acc.2.X,
        (rest.map Vector3.Y).foldl max acc.2.Y,
        (rest.map Vector3.Z).foldl max acc.2.Z⟩) := by
  induction rest generalizing acc with
  | nil => rfl
  | cons v rest ih =>
    rw [List.foldl_cons, ih, MinMaxBody_fst, MinMaxBody_snd]
    simp only [List.map_cons, List.foldl_cons]

theorem foldl_min_le_init (l : List α) (a : α) : l.foldl min a ≤ a := by
  induction l generalizing a with
  | nil => exact le_refl a
  | cons b l ih => exact le_trans (ih (min a b)) (min_le_left a b)

theorem foldl_min_isMinOf (l : List α) (a : α) :
    IsMinOf (l.foldl min a) (a :: l) := by
  induction l generalizing a with
  | nil => exact ⟨List.mem_singleton.mpr rfl, fun y hy => by
      rw [List.mem_singleton.mp hy]; exact le_refl a⟩
  | cons b l ih =>
    obtain ⟨hmem, hle⟩ := ih (min a b)
    refine ⟨?_, ?_⟩
    · rw [List.foldl_cons]
      rcases List.mem_cons.mp hmem with h | h
      · rw [h]
        rcases min_choice a b with h2 | h2 <;> rw [h2] <;> simp
      · exact List.mem_cons_of_mem _ (List.mem_cons_of_mem _ h)
    · intro y hy
      rw [List.foldl_cons]
      rcases List.mem_cons.mp hy with h | h
      · rw [h]; exact le_trans (foldl_min_le_init l _) (min_le_left a b)
      · rcases List.mem_cons.mp h with h2 | h2
        · rw [h2]; exact le_trans (foldl_min_le_init l _) (min_le_right a b)
        · exact hle y (List.mem_cons_of_mem _ h2)

theorem foldl_max_ge_init (l : List α) (a : α) : a ≤ l.foldl max a := by
  induction l generalizing a with
  | nil => exact le_refl a
  | cons b l ih => exact le_trans (le_max_left a b) (ih (max a b))

theorem foldl_max_isMaxOf (l : List α) (a : α) :
    IsMaxOf (l.foldl max a) (a :: l) := by
  induction l generalizing a with
  | nil => exact ⟨List.mem_singleton.mpr rfl, fun y hy => by
      rw [List.mem_singleton.mp hy]; exact le_refl a⟩
  | cons b l ih =>
    obtain ⟨hmem, hle⟩ := ih (max a b)
    refine ⟨?_, ?_⟩
    · rw [List.foldl_cons]
      rcases List.mem_cons.mp hmem with h | h
      · rw [h]
        rcases max_choice a b with h2 | h2 <;> rw [h2] <;> simp
      · exact List.mem_cons_of_mem _ (List.mem_cons_of_mem _ h)
    · intro y hy
      rw [List.foldl_cons]
      rcases List.mem_cons.mp hy with h | h
      · rw [h]; exact le_trans (le_max_left a b) (foldl_max_ge_init l _)
      · rcases List.mem_cons.mp h with h2 | h2
        · rw [h2]; exact le_trans (le_max_right a b) (foldl_max_ge_init l _)
        · exact hle y (List.mem_cons_of_mem _ h2)

/-- C1. `MinMax` on a non-empty vertex list: whatever `_min` and `_max` held
before the call, afterwards each coordinate of `_min` is the least value of
that coordinate over all vertices and each coordinate of `_max` is the
greatest one. -/
theorem MinMax_is_min_and_max (vertices : List (Vector3 α))
    (hne : vertices ≠ []) (_min _max : Vector3 α) :
    IsMinOf (MinMax vertices _min _max).1.X (vertices.map Vector3.X) ∧
    IsMinOf (MinMax vertices _min _max).1.Y (vertices.map Vector3.Y) ∧
    IsMinOf (MinMax vertices _min _max).1.Z (vertices.map Vector3.Z) ∧
    IsMaxOf (MinMax vertices _min _max).2.X (vertices.map Vector3.X) ∧
    IsMaxOf (MinMax vertices _min _max).2.Y (vertices.map Vector3.Y) ∧
    IsMaxOf (MinMax vertices _min _max).2.Z (vertices.map Vector3.Z) := by
  cases vertices with
  | nil => exact absurd rfl hne
  | cons v0 rest =>
    simp only [MinMax, foldl_MinMaxBody, List.map_cons]
    exact ⟨foldl_min_isMinOf _ _, foldl_min_isMinOf _ _, foldl_min_isMinOf _ _,
      foldl_max_isMaxOf _ _, foldl_max_isMaxOf _ _, foldl_max_isMaxOf _ _⟩

end MinMaxProofs

/-- Witness of C1 on `sampleVertices`: the result is `(1, -4, 0)` and
`(3, 5, 7)` although the outputs held `(100, 100, 100)` and `(-9, -9, -9)`. -/
theorem MinMax_is_min_and_max_witness :
    sampleVertices ≠ [] ∧
    MinMax sampleVertices ⟨100, 100, 100⟩ ⟨-9, -9, -9⟩ =
      (⟨1, -4, 0⟩, ⟨3, 5, 7⟩) ∧
    IsMinOf (MinMax sampleVertices ⟨100, 100, 100⟩ ⟨-9, -9, -9⟩).1.X
      (sampleVertices.map Vector3.X) :=
  ⟨by decide, by decide,
    (MinMax_is_min_and_max sampleVertices (by decide)
      ⟨100, 100, 100⟩ ⟨-9, -9, -9⟩).1⟩

section TransformProofs

variable {α Q : Type} [Field α]

/-- C2. `Transform` leaves exactly eight entries in `_vertices`, whatever
the list held before, and entry `i` is the corner
`Rot * (center + s_i * (XLength/2, YLength/2, ZLength/2)) + Pos` for the
`i`-th sign triple of (-,+,+), (+,+,+), (-,-,+), (+,-,+), (-,+,-), (+,+,-),
(-,-,-), (+,-,-). -/
theorem Transform_eight_world_corners (rotate : Q → Vector3 α → Vector3 α)
    (_bbox : AxisAlignedBox α) (_worldPose : Pose3 α Q)
    (_vertices : List (Vector3 α)) :
    (Transform rotate _bbox _worldPose _vertices).length = 8 ∧
    Transform rotate _bbox _worldPose _vertices =
      cornerSigns.map (worldCorner rotate _bbox _worldPose) := by
  refine ⟨rfl, ?_⟩
  simp only [Transform, vectorClear, cornerSigns, worldCorner, List.map_cons,
    List.map_nil, List.nil_append, List.cons_append, List.singleton_append,
    one_mul, neg_mul, neg_div]

end TransformProofs

section LightProofs

open OgreLight

/-- What `CreateLight` returns, by the first failing engine call. -/
theorem CreateLight_eq (faults : Faults) (l : OgreLight) :
    CreateLight faults l =
      match firstFault faults with
      | some ex => .error (.gz ("Unabled to create light: " ++ ex.fullDescription))
      | none =>
        .ok { l with
          ogreLight := some
            ((((l.scene.createLight l.name).setType l.ogreLightType).setCastShadows
              true).setAttenuation l.attenRange l.attenConstant l.attenLinear
              l.attenQuadratic),
          ogreNode := l.ogreNode.attachObject
            ((l.scene.createLight l.name).setType l.ogreLightType) } := by
  cases h1 : faults .createLight <;> cases h2 : faults .setType <;>
    cases h3 : faults .attachObject <;> cases h4 : faults .setCastShadows <;>
    cases h5 : faults .setAttenuation <;>
    simp [CreateLight, CreateLightTry, engineCall, firstFault, h1, h2, h3, h4, h5,
      OgreLight.light, UpdateAttenuation, bind, Except.bind, pure, Except.pure]

theorem firstFault_eq_none_iff (faults : Faults) :
    firstFault faults = none ↔ ∀ c, faults c = none := by
  constructor
  · intro h c
    simp only [firstFault, List.findSome?_eq_none_iff, List.mem_cons,
      List.mem_singleton, List.not_mem_nil, or_false] at h
    cases c <;> simp [h]
  · intro h
    simp [firstFault, h]

/-- C4. `CreateLight` never lets an `Ogre::Exception` escape; when one of its
engine calls fails it throws the library's own error whose message wraps the
full description of the first failing call's exception; when no engine call
fails it returns normally. -/
theorem CreateLight_wraps_engine_failures (faults : Faults) (l : OgreLight) :
    (∀ ex, CreateLight faults l ≠ .error (.ogre ex)) ∧
    ((∃ c, faults c ≠ none) →
      ∃ ex, firstFault faults = some ex ∧
        CreateLight faults l =
          .error (.gz ("Unabled to create light: " ++ ex.fullDescription))) ∧
    ((∀ c, faults c = none) → ∃ l', CreateLight faults l = .ok l') := by
  rw [CreateLight_eq]
  refine ⟨?_, ?_, ?_⟩
  · intro ex
    cases firstFault faults <;> simp
  · rintro ⟨c, hc⟩
    cases h : firstFault faults with
    | none => exact absurd ((firstFault_eq_none_iff faults).mp h c) hc
    | some ex => exact ⟨ex, rfl, rfl⟩
  · intro h
    rw [(firstFault_eq_none_iff faults).mpr h]
    exact ⟨_, rfl⟩

/-- Witness of C4: with the attachment failing, `CreateLight` throws the
wrapped error; with no failure it returns the created light. -/
theorem CreateLight_wraps_engine_failures_witness :
    (∃ c, attachFails c ≠ none) ∧
    (∃ ex, firstFault attachFails = some ex ∧
      CreateLight attachFails (OgreSpotLight.new sampleMembers) =
        .error (.gz ("Unabled to create light: " ++ ex.fullDescription))) ∧
    (∀ c, noFaults c = none) ∧
    (∃ l', CreateLight noFaults (OgreSpotLight.new sampleMembers) = .ok l') :=
  ⟨⟨.attachObject, by decide⟩,
   (CreateLight_wraps_engine_failures attachFails
      (OgreSpotLight.new sampleMembers)).2.1 ⟨.attachObject, by decide⟩,
   fun _ => rfl,
   (CreateLight_wraps_engine_failures noFaults
      (OgreSpotLight.new sampleMembers)).2.2 (fun _ => rfl)⟩

theorem CreateLight_inSync (faults : Faults) (l0 l : OgreLight)
    (h : CreateLight faults l0 = .ok l) : AttenuationInSync l := by
  rw [CreateLight_eq] at h
  cases hf : firstFault faults with
  | some ex => rw [hf] at h; cases h
  | none =>
    rw [hf] at h
    injection h with h
    subst h
    exact ⟨_, rfl, rfl, rfl, rfl, rfl⟩

theorem apply_inSync (op : LightOp) (l l' : OgreLight)
    (hs : AttenuationInSync l) (h : op.apply l = .ok l') :
    AttenuationInSync l' := by
  obtain ⟨e, he, h1, h2, h3, h4⟩ := hs
  cases op <;>
    simp only [LightOp.apply, SetDiffuseColor, SetSpecularColor,
      SetAttenuationConstant, SetAttenuationLinear, SetAttenuationQuadratic,
      SetAttenuationRange, SetCastShadows, SetDirection, SetInnerAngle,
      SetOuterAngle, SetFalloff, UpdateAttenuation, OgreLight.light, he,
      bind, Except.bind, pure, Except.pure, Except.ok.injEq] at h <;>
    subst h <;>
    exact ⟨_, rfl, by simp [EngineLight.setAttenuation, EngineLight.setDiffuseColour,
      EngineLight.setSpecularColour, EngineLight.setCastShadows,
      EngineLight.setDirection, EngineLight.setSpotlightInnerAngle,
      EngineLight.setSpotlightOuterAngle, EngineLight.setSpotlightFalloff,
      h1, h2, h3, h4]⟩

/-- Every created light has an engine light whose attenuation values are the
stored ones. -/
theorem Created.inSync {l : OgreLight} (h : Created l) : AttenuationInSync l := by
  induction h with
  | create faults l0 l hc => exact CreateLight_inSync faults l0 l hc
  | call op l l' _ ha ih => exact apply_inSync op l l' ih ha

theorem sampleCreated_eq :
    CreateLight noFaults (OgreSpotLight.new sampleMembers) = .ok sampleCreated := by
  decide!

theorem sampleCreated_created : Created sampleCreated :=
  Created.create noFaults (OgreSpotLight.new sampleMembers) sampleCreated
    sampleCreated_eq

theorem wideCreated_eq :
    CreateLight noFaults (OgrePointLight.new wideMembers) = .ok wideCreated := by
  decide!

theorem UpdateAttenuation_eq (l : OgreLight) (e : EngineLight)
    (he : l.ogreLight = some e) :
    l.UpdateAttenuation =
      .ok { l with ogreLight := some (e.setAttenuation l.attenRange
              l.attenConstant l.attenLinear l.attenQuadratic) } := by
  simp [UpdateAttenuation, OgreLight.light, he, bind, Except.bind, pure,
    Except.pure]

theorem attenuation_getters_eq (l : OgreLight) (e : EngineLight)
    (he : l.ogreLight = some e) :
    l.GetAttenuationConstant = .ok e.attenuationConst ∧
    l.GetAttenuationLinear = .ok e.attenuationLinear ∧
    l.GetAttenuationQuadratic = .ok e.attenuationQuad ∧
    l.GetAttenuationRange = .ok e.range := by
  simp [GetAttenuationConstant, GetAttenuationLinear, GetAttenuationQuadratic,
    GetAttenuationRange, OgreLight.light, he, bind, Except.bind, pure,
    Except.pure]

theorem colour_getters_eq (l : OgreLight) (e : EngineLight)
    (he : l.ogreLight = some e) :
    l.GetDiffuseColor = .ok (Convert e.diffuse) ∧
    l.GetSpecularColor = .ok (Convert e.specular) := by
  simp [GetDiffuseColor, GetSpecularColor, OgreLight.light, he, bind,
    Except.bind, pure, Except.pure]

theorem colour_setters_eq (l : OgreLight) (e : EngineLight)
    (he : l.ogreLight = some e) (c : Color) :
    l.SetDiffuseColor c =
      .ok { l with ogreLight := some (e.setDiffuseColour c.r c.g c.b) } ∧
    l.SetSpecularColor c =
      .ok { l with ogreLight := some (e.setSpecularColour c.r c.g c.b) } := by
  simp [SetDiffuseColor, SetSpecularColor, OgreLight.light, he, bind,
    Except.bind, pure, Except.pure]

/-- C5, counterexample. On the sample created light, setting the constant
attenuation to `2^24 + 1` and reading it back gives `2^24`; setting `7/3`
gives `9786709/4194304`. The same happens with the linear, quadratic and
range values. -/
theorem attenuation_round_trip_narrows :
    Created sampleCreated ∧
    (∃ l', sampleCreated.SetAttenuationConstant 16777217 = .ok l' ∧
      l'.GetAttenuationConstant = .ok 16777216 ∧
      l'.GetAttenuationConstant ≠ .ok 16777217) ∧
    (∃ l', sampleCreated.SetAttenuationConstant (.fin (7 / 3)) = .ok l' ∧
      l'.GetAttenuationConstant = .ok (.fin (9786709 / 4194304)) ∧
      l'.GetAttenuationConstant ≠ .ok (.fin (7 / 3))) ∧
    (∃ l', sampleCreated.SetAttenuationLinear 16777217 = .ok l' ∧
      l'.GetAttenuationLinear = .ok 16777216) ∧
    (∃ l', sampleCreated.SetAttenuationQuadratic 16777217 = .ok l' ∧
      l'.GetAttenuationQuadratic = .ok 16777216) ∧
    (∃ l', sampleCreated.SetAttenuationRange 16777217 = .ok l' ∧
      l'.GetAttenuationRange = .ok 16777216) := by
  refine ⟨sampleCreated_created, ⟨_, UpdateAttenuation_eq _ _ rfl, ?_, ?_⟩,
    ⟨_, UpdateAttenuation_eq _ _ rfl, ?_, ?_⟩, ⟨_, UpdateAttenuation_eq _ _ rfl, ?_⟩,
    ⟨_, UpdateAttenuation_eq _ _ rfl, ?_⟩, ⟨_, UpdateAttenuation_eq _ _ rfl, ?_⟩⟩ <;>
    decide!

/-- C5, amended. On a created light, each attenuation setter followed by its
getter returns the value set as the engine holds it, that is narrowed to
single precision: constant, linear, quadratic and range. -/
theorem attenuation_round_trip (l : OgreLight) (hc : Created l) (v : FpVal) :
    (∃ l', l.SetAttenuationConstant v = .ok l' ∧
      l'.GetAttenuationConstant = .ok (toReal v)) ∧
    (∃ l', l.SetAttenuationLinear v = .ok l' ∧
      l'.GetAttenuationLinear = .ok (toReal v)) ∧
    (∃ l', l.SetAttenuationQuadratic v = .ok l' ∧
      l'.GetAttenuationQuadratic = .ok (toReal v)) ∧
    (∃ l', l.SetAttenuationRange v = .ok l' ∧
      l'.GetAttenuationRange = .ok (toReal v)) := by
  obtain ⟨e, he, -⟩ := hc.inSync
  refine ⟨⟨_, UpdateAttenuation_eq _ e he, ?_⟩, ⟨_, UpdateAttenuation_eq _ e he, ?_⟩,
    ⟨_, UpdateAttenuation_eq _ e he, ?_⟩, ⟨_, UpdateAttenuation_eq _ e he, ?_⟩⟩ <;>
  · simp [GetAttenuationConstant, GetAttenuationLinear, GetAttenuationQuadratic,
      GetAttenuationRange, OgreLight.light, EngineLight.setAttenuation, bind,
      Except.bind, pure, Except.pure]

/-- Witness of the amended C5 on the sample created light: the value `1/2`,
which single precision holds, is read back unchanged. -/
theorem attenuation_round_trip_witness :
    Created sampleCreated ∧
    toReal (.fin (1 / 2)) = .fin (1 / 2) ∧
    ∃ l', sampleCreated.SetAttenuationConstant (.fin (1 / 2)) = .ok l' ∧
      l'.GetAttenuationConstant = .ok (toReal (.fin (1 / 2))) :=
  ⟨sampleCreated_created, by decide!,
   (attenuation_round_trip sampleCreated sampleCreated_created (.fin (1 / 2))).1⟩

/-- C6. On a created light, each of the four attenuation setters leaves the
values returned by the other three attenuation getters as they were before
the call. -/
theorem attenuation_frame (l : OgreLight) (hc : Created l) (v : FpVal) :
    (∃ l', l.SetAttenuationConstant v = .ok l' ∧
      l'.GetAttenuationLinear = l.GetAttenuationLinear ∧
      l'.GetAttenuationQuadratic = l.GetAttenuationQuadratic ∧
      l'.GetAttenuationRange = l.GetAttenuationRange) ∧
    (∃ l', l.SetAttenuationLinear v = .ok l' ∧
      l'.GetAttenuationConstant = l.GetAttenuationConstant ∧
      l'.GetAttenuationQuadratic = l.GetAttenuationQuadratic ∧
      l'.GetAttenuationRange = l.GetAttenuationRange) ∧
    (∃ l', l.SetAttenuationQuadratic v = .ok l' ∧
      l'.GetAttenuationConstant = l.GetAttenuationConstant ∧
      l'.GetAttenuationLinear = l.GetAttenuationLinear ∧
      l'.GetAttenuationRange = l.GetAttenuationRange) ∧
    (∃ l', l.SetAttenuationRange v = .ok l' ∧
      l'.GetAttenuationConstant = l.GetAttenuationConstant ∧
      l'.GetAttenuationLinear = l.GetAttenuationLinear ∧
      l'.GetAttenuationQuadratic = l.GetAttenuationQuadratic) := by
  obtain ⟨e, he, h1, h2, h3, h4⟩ := hc.inSync
  obtain ⟨g1, g2, g3, g4⟩ := attenuation_getters_eq l e he
  rw [g1, g2, g3, g4]
  refine ⟨⟨_, UpdateAttenuation_eq _ e he, ?_⟩, ⟨_, UpdateAttenuation_eq _ e he, ?_⟩,
    ⟨_, UpdateAttenuation_eq _ e he, ?_⟩, ⟨_, UpdateAttenuation_eq _ e he, ?_⟩⟩ <;>
  · simp [GetAttenuationConstant, GetAttenuationLinear, GetAttenuationQuadratic,
      GetAttenuationRange, OgreLight.light, EngineLight.setAttenuation, bind,
      Except.bind, pure, Except.pure, h1, h2, h3, h4]

/-- Witness of C6 on the sample created light: setting the linear value to
`9` leaves constant, quadratic and range as they were. -/
theorem attenuation_frame_witness :
    Created sampleCreated ∧
    ∃ l', sampleCreated.SetAttenuationLinear 9 = .ok l' ∧
      l'.GetAttenuationConstant = sampleCreated.GetAttenuationConstant ∧
      l'.GetAttenuationQuadratic = sampleCreated.GetAttenuationQuadratic ∧
      l'.GetAttenuationRange = sampleCreated.GetAttenuationRange :=
  ⟨sampleCreated_created,
   (attenuation_frame sampleCreated sampleCreated_created 9).2.1⟩

/-- C7, counterexample. On the sample created light, setting the diffuse
colour `(1/5, 3/10, 2/5)` with alpha `1/2` and reading it back gives alpha
`1`, not the colour that was set; the same holds for the specular colour. -/
theorem colour_round_trip_loses_alpha :
    Created sampleCreated ∧
    (∃ l', sampleCreated.SetDiffuseColor ⟨1 / 5, 3 / 10, 2 / 5, 1 / 2⟩ = .ok l' ∧
      l'.GetDiffuseColor = .ok ⟨1 / 5, 3 / 10, 2 / 5, 1⟩ ∧
      l'.GetDiffuseColor ≠ .ok ⟨1 / 5, 3 / 10, 2 / 5, 1 / 2⟩) ∧
    (∃ l', sampleCreated.SetSpecularColor ⟨1 / 5, 3 / 10, 2 / 5, 1 / 2⟩ = .ok l' ∧
      l'.GetSpecularColor = .ok ⟨1 / 5, 3 / 10, 2 / 5, 1⟩ ∧
      l'.GetSpecularColor ≠ .ok ⟨1 / 5, 3 / 10, 2 / 5, 1 / 2⟩) :=
  ⟨sampleCreated_created,
   ⟨_, rfl, rfl, fun h => by
      have ha : (1 : ℚ) = 1 / 2 := congrArg Color.a (Except.ok.inj h)
      norm_num at ha⟩,
   ⟨_, rfl, rfl, fun h => by
      have ha : (1 : ℚ) = 1 / 2 := congrArg Color.a (Except.ok.inj h)
      norm_num at ha⟩⟩

/-- C7, amended. On a created light both colour getters return a colour, and
for every colour `c`: after `SetDiffuseColor(c)` the diffuse colour read back
has the red, green and blue of `c` and the alpha it had before the call, and
the specular colour is unchanged; after `SetSpecularColor(c)` the specular
colour read back has the red, green and blue of `c` and the alpha it had
before, and the diffuse colour is unchanged. -/
theorem colour_round_trip_rgb (l : OgreLight) (hc : Created l) :
    ∃ d s, l.GetDiffuseColor = .ok d ∧ l.GetSpecularColor = .ok s ∧
      ∀ c : Color,
        (∃ l', l.SetDiffuseColor c = .ok l' ∧
          l'.GetDiffuseColor = .ok ⟨c.r, c.g, c.b, d.a⟩ ∧
          l'.GetSpecularColor = .ok s) ∧
        (∃ l', l.SetSpecularColor c = .ok l' ∧
          l'.GetSpecularColor = .ok ⟨c.r, c.g, c.b, s.a⟩ ∧
          l'.GetDiffuseColor = .ok d) := by
  obtain ⟨e, he, -⟩ := hc.inSync
  refine ⟨_, _, (colour_getters_eq l e he).1, (colour_getters_eq l e he).2, ?_⟩
  intro c
  refine ⟨⟨_, (colour_setters_eq l e he c).1, ?_, ?_⟩,
    ⟨_, (colour_setters_eq l e he c).2, ?_, ?_⟩⟩ <;>
  · simp [GetDiffuseColor, GetSpecularColor, OgreLight.light, Convert,
      EngineLight.setDiffuseColour, EngineLight.setSpecularColour, bind,
      Except.bind, pure, Except.pure]

/-- Witness of the amended C7 on the sample created light. -/
theorem colour_round_trip_rgb_witness :
    Created sampleCreated ∧
    ∃ d s, sampleCreated.GetDiffuseColor = .ok d ∧
      sampleCreated.GetSpecularColor = .ok s ∧
      ∀ c : Color,
        (∃ l', sampleCreated.SetDiffuseColor c = .ok l' ∧
          l'.GetDiffuseColor = .ok ⟨c.r, c.g, c.b, d.a⟩ ∧
          l'.GetSpecularColor = .ok s) ∧
        (∃ l', sampleCreated.SetSpecularColor c = .ok l' ∧
          l'.GetSpecularColor = .ok ⟨c.r, c.g, c.b, s.a⟩ ∧
          l'.GetDiffuseColor = .ok d) :=
  ⟨sampleCreated_created, colour_round_trip_rgb sampleCreated sampleCreated_created⟩

/-- C8, counterexample. A point light whose stored constant attenuation is
`2^24 + 1` is created without any engine failure; the engine light then
returns `2^24` as constant attenuation, which is not the stored value. -/
theorem CreateLight_attenuation_narrows :
    CreateLight noFaults (LightClass.point.construct wideMembers) = .ok wideCreated ∧
    wideCreated.attenConstant = 16777217 ∧
    wideCreated.GetAttenuationConstant = .ok 16777216 ∧
    wideCreated.GetAttenuationConstant ≠ .ok wideCreated.attenConstant := by
  refine ⟨wideCreated_eq, rfl, rfl, ?_⟩
  decide!

/-- C8, amended. After a `CreateLight` that returned normally on a freshly
constructed light of any of the four classes, whatever state the engine gives
a new light: the engine light has the type of the class (directional, point,
point for the base, spotlight), is attached to the light's node, casts
shadows, and its four attenuation values are the stored range, constant,
linear and quadratic values narrowed to single precision. -/
theorem CreateLight_postcondition (cls : LightClass) (m : LightMembers)
    (faults : Faults) (l : OgreLight)
    (h : CreateLight faults (cls.construct m) = .ok l) :
    ∃ e, l.ogreLight = some e ∧
      e.type = cls.expectedType ∧
      e.name ∈ l.ogreNode.attachedObjects ∧
      l.GetCastShadows = .ok true ∧
      l.GetAttenuationRange = .ok (toReal l.attenRange) ∧
      l.GetAttenuationConstant = .ok (toReal l.attenConstant) ∧
      l.GetAttenuationLinear = .ok (toReal l.attenLinear) ∧
      l.GetAttenuationQuadratic = .ok (toReal l.attenQuadratic) := by
  rw [CreateLight_eq] at h
  cases hf : firstFault faults with
  | some ex => rw [hf] at h; cases h
  | none =>
    rw [hf] at h
    injection h with h
    subst h
    refine ⟨_, rfl, ?_, ?_, ?_, ?_, ?_, ?_, ?_⟩
    · cases cls <;> rfl
    · simp [SceneNode.attachObject, EngineLight.setType, SceneManager.createLight,
        EngineLight.setCastShadows, EngineLight.setAttenuation]
    all_goals
      simp [GetCastShadows, GetAttenuationConstant, GetAttenuationLinear,
        GetAttenuationQuadratic, GetAttenuationRange, OgreLight.light,
        EngineLight.setAttenuation, EngineLight.setCastShadows, bind,
        Except.bind, pure, Except.pure]

/-- Witness of the amended C8: a spot light built from the sample members on
a scene whose new lights are point lights that cast no shadows; afterwards
the engine light is a spotlight that casts shadows. -/
theorem CreateLight_postcondition_witness :
    sampleScene.newLight.castShadows = false ∧
    sampleScene.newLight.type = LightTypes.LT_POINT ∧
    CreateLight noFaults (LightClass.spot.construct sampleMembers) = .ok sampleCreated ∧
    ∃ e, sampleCreated.ogreLight = some e ∧
      e.type = LightTypes.LT_SPOTLIGHT ∧
      e.name ∈ sampleCreated.ogreNode.attachedObjects ∧
      sampleCreated.GetCastShadows = .ok true ∧
      sampleCreated.GetAttenuationRange = .ok (toReal sampleCreated.attenRange) ∧
      sampleCreated.GetAttenuationConstant = .ok (toReal sampleCreated.attenConstant) ∧
      sampleCreated.GetAttenuationLinear = .ok (toReal sampleCreated.attenLinear) ∧
      sampleCreated.GetAttenuationQuadratic =
        .ok (toReal sampleCreated.attenQuadratic) :=
  ⟨rfl, rfl, sampleCreated_eq,
   CreateLight_postcondition .spot sampleMembers noFaults sampleCreated
     sampleCreated_eq⟩

end LightProofs

section HlmsProofs

/-- C3. In solid-colour mode on a non-caster pass, when reading custom
parameter 1 of the renderable raises `ItemIdentityException`, the call leaves
with that same exception, no effect of the call maps the per-object data
buffer or writes through it, and no instance index is returned. -/
theorem fillBuffersForV2_rethrows_ItemIdentityException
    (instanceIdx : Nat) (getCustomParameter : Nat → Except OgreException Vector4)
    (ex : OgreException)
    (hread : getCustomParameter 1 = .error ex)
    (htype : ex.type = .ItemIdentityException) :
    (fillBuffersForV2 .IORM_SOLID_COLOR (.ok instanceIdx) getCustomParameter
        false).result = .error ex ∧
    (∀ eff ∈ (fillBuffersForV2 .IORM_SOLID_COLOR (.ok instanceIdx)
        getCustomParameter false).effects, eff.touchesObjectData = false) ∧
    (∀ idx, (fillBuffersForV2 .IORM_SOLID_COLOR (.ok instanceIdx)
        getCustomParameter false).result ≠ .ok idx) := by
  simp [fillBuffersForV2, hread, htype, HlmsEffect.touchesObjectData]

/-- Witness of C3: a renderable without custom parameters, base instance
index 5. -/
theorem fillBuffersForV2_rethrows_ItemIdentityException_witness :
    (fillBuffersForV2 .IORM_SOLID_COLOR (.ok 5) noCustomParameter false).result =
      .error ⟨.ItemIdentityException, "Parameter at the given index was not found."⟩ ∧
    (fillBuffersForV2 .IORM_SOLID_COLOR (.ok 5) noCustomParameter false).effects =
      [.baseFillBuffersForV2, .ignerr missingParameterMessage] :=
  ⟨(fillBuffersForV2_rethrows_ItemIdentityException 5 noCustomParameter
      ⟨.ItemIdentityException, "Parameter at the given index was not found."⟩
      rfl rfl).1, rfl⟩

end HlmsProofs

section ScalingProofs

theorem mathEqual_zero_zero : mathEqual 0 0 = true := by
  decide!

theorem defaultEpsilon_eq : defaultEpsilon = .fin (8796093 / 8796093022208) := by
  decide!

/-- C9, counterexample. On a display of 1080 pixels on 286 millimetres with
`Xft.dpi: 0.0000005`, the desktop DPI read is a non-zero `float` and the
resolution DPI is a non-zero `float`, yet the result is `1` and not the
quotient of the two. -/
theorem screenScalingFactor_tiny_dpi :
    desktopDpi sampleAtof tinyDpiDisplay =
      some (.fin (8796093 / 17592186044416)) ∧
    (FpVal.fin (8796093 / 17592186044416) ≠ 0) ∧
    resolutionDpi tinyDpiDisplay = .fin (12571913 / 131072) ∧
    (FpVal.fin (12571913 / 131072) ≠ 0) ∧
    screenScalingFactor sampleAtof tinyDpiDisplay = 1 ∧
    binary32.div (.fin (8796093 / 17592186044416)) (.fin (12571913 / 131072)) =
      .fin (11738385 / 2251799813685248) ∧
    ((1 : FpVal) ≠ .fin (11738385 / 2251799813685248)) := by
  refine ⟨?_, ?_, ?_, ?_, ?_, ?_, ?_⟩ <;> decide!

theorem screenScalingFactor_eq (atof : String → FpVal) (disp : XDisplay) :
    screenScalingFactor atof disp =
      match disp.XResourceManagerString with
      | none => 1
      | some _ =>
        if (!mathEqual ((desktopDpi atof disp).getD 0) 0 &&
            !mathEqual (resolutionDpi disp) 0) = true then
          binary32.div ((desktopDpi atof disp).getD 0) (resolutionDpi disp)
        else 1 := by
  unfold screenScalingFactor desktopDpi resolutionDpi
  cases hrs : disp.XResourceManagerString with
  | none => rfl
  | some rs =>
    simp only []
    rcases disp.XrmGetResource rs "Xft.dpi" "String" with _ | _ | addr <;> rfl

/-- C9, amended. The result is `1` when the resource manager string is
absent, when the `Xft.dpi` resource is absent or has no value, when
`math::equal` accepts the desktop DPI read from it as 0, or when it accepts
the resolution DPI as 0; in every other case the result is the desktop DPI
divided by the resolution DPI in single precision, a height of 0 millimetres
included. `math::equal(x, 0)` holds exactly when `x` is finite and its
magnitude is at most the tolerance, the `float` nearest to `1e-6`. -/
theorem screenScalingFactor_cases (atof : String → FpVal) (disp : XDisplay) :
    (desktopDpi atof disp = none → screenScalingFactor atof disp = 1) ∧
    (∀ dpi, desktopDpi atof disp = some dpi →
      (mathEqual dpi 0 = true → screenScalingFactor atof disp = 1) ∧
      (mathEqual (resolutionDpi disp) 0 = true →
        screenScalingFactor atof disp = 1) ∧
      (mathEqual dpi 0 = false → mathEqual (resolutionDpi disp) 0 = false →
        screenScalingFactor atof disp =
          binary32.div dpi (resolutionDpi disp))) ∧
    defaultEpsilon = .fin (8796093 / 8796093022208) ∧
    (∀ q : ℚ, mathEqual (.fin q) 0 =
      (binary32.round q).abs.le (.fin (8796093 / 8796093022208))) ∧
    (∀ negative, mathEqual (.inf negative) 0 = false) ∧
    mathEqual .nan 0 = false := by
  rw [screenScalingFactor_eq]
  refine ⟨?_, ?_, defaultEpsilon_eq, ?_, ?_, rfl⟩
  · intro h
    cases hrs : disp.XResourceManagerString with
    | none => rfl
    | some rs => simp [h, mathEqual_zero_zero]
  · intro dpi h
    cases hrs : disp.XResourceManagerString with
    | none => simp [desktopDpi, hrs] at h
    | some rs =>
      simp only [h, Option.getD_some]
      refine ⟨?_, ?_, ?_⟩
      · intro h1; simp [h1]
      · intro h2; simp [h2]
      · intro h1 h2; simp [h1, h2]
  · intro q
    rw [← defaultEpsilon_eq]
    show (FpVal.abs (binary32.round (q - ((0 : ℕ) : ℚ)))).le defaultEpsilon = _
    rw [Nat.cast_zero, sub_zero]
  · intro negative
    cases negative <;> decide!

/-- Witness of the amended C9: 1080 pixels on 286 millimetres with
`Xft.dpi: 192` gives the `float` quotient `8395947/4194304`, about 2.00175;
the same display reporting 0 millimetres has an infinite resolution DPI and
gives 0. -/
theorem screenScalingFactor_cases_witness :
    desktopDpi sampleAtof hiDpiDisplay = some 192 ∧
    mathEqual 192 0 = false ∧
    mathEqual (resolutionDpi hiDpiDisplay) 0 = false ∧
    screenScalingFactor sampleAtof hiDpiDisplay =
      binary32.div 192 (resolutionDpi hiDpiDisplay) ∧
    binary32.div 192 (resolutionDpi hiDpiDisplay) = .fin (8395947 / 4194304) ∧
    resolutionDpi zeroHeightDisplay = .inf false ∧
    screenScalingFactor sampleAtof zeroHeightDisplay =
      binary32.div 192 (resolutionDpi zeroHeightDisplay) ∧
    binary32.div 192 (resolutionDpi zeroHeightDisplay) = 0 :=
  have hd : desktopDpi sampleAtof hiDpiDisplay = some 192 := by decide!
  have h1 : mathEqual 192 0 = false := by decide!
  have h2 : mathEqual (resolutionDpi hiDpiDisplay) 0 = false := by decide!
  have hz : desktopDpi sampleAtof zeroHeightDisplay = some 192 := by decide!
  have h3 : mathEqual (resolutionDpi zeroHeightDisplay) 0 = false := by decide!
  ⟨hd, h1, h2,
   ((screenScalingFactor_cases sampleAtof hiDpiDisplay).2.1 192 hd).2.2 h1 h2,
   by decide!, by decide!,
   ((screenScalingFactor_cases sampleAtof zeroHeightDisplay).2.1 192 hz).2.2 h1 h3,
   by decide!⟩

end ScalingProofs

section VisualProofs

/-- C10. Adding a geometry that is already attached to a visual does no
work: the visual is unchanged, so `GeometryCount()` and `GeometryByIndex(i)`
for every index `i` are the same after the call as before it. -/
theorem AddGeometry_idempotent (v : Visual) (g : Nat)
    (h : v.HasGeometry g = true) :
    v.AddGeometry g = v ∧
    (v.AddGeometry g).GeometryCount = v.GeometryCount ∧
    ∀ i, (v.AddGeometry g).GeometryByIndex i = v.GeometryByIndex i := by
  have hv : v.AddGeometry g = v := by simp [Visual.AddGeometry, h]
  rw [hv]
  exact ⟨rfl, rfl, fun _ => rfl⟩

/-- Witness of C10: geometry 7 is attached to the visual holding 4, 7, 9. -/
theorem AddGeometry_idempotent_witness :
    (Visual.mk [4, 7, 9]).HasGeometry 7 = true ∧
    (Visual.mk [4, 7, 9]).AddGeometry 7 = Visual.mk [4, 7, 9] :=
  ⟨by decide, (AddGeometry_idempotent (Visual.mk [4, 7, 9]) 7 (by decide)).1⟩

end VisualProofs

section VisualRemovalProofs

/-- C11. At every index at which no geometry exists, that is at every index
from `GeometryCount()` on, `GeometryByIndex` returns NULL; and removing a
geometry that is not attached to the visual does no work: the visual, and so
`GeometryCount()`, is unchanged. -/
theorem GeometryByIndex_null_and_RemoveGeometry_noop (v : Visual) :
    (∀ i, v.GeometryCount ≤ i → v.GeometryByIndex i = none) ∧
    (∀ g, v.HasGeometry g = false →
      (v.RemoveGeometry g).2 = v ∧
      (v.RemoveGeometry g).2.GeometryCount = v.GeometryCount) := by
  refine ⟨?_, ?_⟩
  · intro i hi
    exact List.get?_eq_none.mpr hi
  · intro g hg
    have hv : (v.RemoveGeometry g).2 = v := by simp [Visual.RemoveGeometry, hg]
    rw [hv]
    exact ⟨rfl, rfl⟩

/-- Witness of C11 on the visual holding 4, 7, 9: index 3 gives NULL and
removing geometry 5 changes nothing. -/
theorem GeometryByIndex_null_and_RemoveGeometry_noop_witness :
    (Visual.mk [4, 7, 9]).GeometryCount ≤ 3 ∧
    (Visual.mk [4, 7, 9]).GeometryByIndex 3 = none ∧
    (Visual.mk [4, 7, 9]).HasGeometry 5 = false ∧
    ((Visual.mk [4, 7, 9]).RemoveGeometry 5).2 = Visual.mk [4, 7, 9] :=
  ⟨by decide,
   (GeometryByIndex_null_and_RemoveGeometry_noop (Visual.mk [4, 7, 9])).1 3 (by decide),
   by decide,
   ((GeometryByIndex_null_and_RemoveGeometry_noop (Visual.mk [4, 7, 9])).2 5
      (by decide)).1⟩

end VisualRemovalProofs

section ListenerChainProofs

open Ogre2IgnHlmsPbs

/-- Appending one effect per listener in a loop is mapping over the
listeners. -/
theorem foldl_append_effect (f : HlmsListener → HlmsEffect)
    (ls : List HlmsListener) (init : List HlmsEffect) :
    ls.foldl (fun effects listener => effects ++ [f listener]) init =
      init ++ ls.map f := by
  induction ls generalizing init with
  | nil => simp
  | cons l ls ih => simp [ih]

theorem toUint32_lt (n : Nat) : toUint32 n < 2 ^ 32 :=
  Nat.mod_lt n (by norm_num)

theorem toUint32_add_toUint32 (a b : Nat) :
    toUint32 (a + toUint32 b) = toUint32 (a + b) := by
  simp [toUint32, Nat.add_mod]

theorem toUint32_toUint32_add (a b : Nat) :
    toUint32 (toUint32 a + b) = toUint32 (a + b) := by
  simp [toUint32, Nat.add_mod]

theorem toUint32_of_lt (n : Nat) (h : n < 2 ^ 32) : toUint32 n = n :=
  Nat.mod_eq_of_lt h

theorem foldl_getPassBufferSize (f : HlmsListener → HlmsEffect)
    (g : HlmsListener → Nat) (ls : List HlmsListener) (acc : HlmsTrace Nat)
    (hacc : acc.value < 2 ^ 32) :
    ls.foldl (fun (acc : HlmsTrace Nat) listener =>
        (⟨acc.effects ++ [f listener],
          toUint32 (acc.value + toUint32 (g listener))⟩ : HlmsTrace Nat)) acc =
      ⟨acc.effects ++ ls.map f,
       toUint32 (acc.value + (ls.map (fun l => toUint32 (g l))).sum)⟩ := by
  induction ls generalizing acc with
  | nil => simp [toUint32_of_lt _ hacc]
  | cons l ls ih =>
    rw [List.foldl_cons, ih _ (toUint32_lt _)]
    simp [toUint32_toUint32_add, Nat.add_assoc]

/-- C12. The size returned by `getPassBufferSize` is the sum, in 32-bit
unsigned arithmetic, of the sizes the listeners return for the same
arguments, each listener being asked exactly once, in registration order; it
is 0 when there are no listeners, so the class adds no bytes of its own. -/
theorem getPassBufferSize_is_sum (self : Ogre2IgnHlmsPbs) (_shadowNode : Nat)
    (_casterPass _dualParaboloid : Bool) (_sceneManager : Nat) :
    (self.getPassBufferSize _shadowNode _casterPass _dualParaboloid
        _sceneManager).value =
      toUint32 ((self.customizations.map (fun l =>
        toUint32 (l.getPassBufferSize _shadowNode _casterPass _dualParaboloid
          _sceneManager))).sum) ∧
    (self.getPassBufferSize _shadowNode _casterPass _dualParaboloid
        _sceneManager).effects =
      self.customizations.map (fun l => .listener l.id
        (.getPassBufferSize _shadowNode _casterPass _dualParaboloid _sceneManager)) ∧
    (self.customizations = [] →
      (self.getPassBufferSize _shadowNode _casterPass _dualParaboloid
        _sceneManager).value = 0) := by
  unfold Ogre2IgnHlmsPbs.getPassBufferSize
  rw [foldl_getPassBufferSize _ _ _ _ (by norm_num)]
  simp only [List.nil_append, Nat.zero_add]
  refine ⟨trivial, trivial, ?_⟩
  intro h
  simp [h, toUint32]

/-- Witness of C12: the two sample listeners return 16 and `2^32 - 8`, the
32-bit sum is 8; without listeners the size is 0. -/
theorem getPassBufferSize_is_sum_witness :
    (sampleHlms.getPassBufferSize 0 false false 0).value = 8 ∧
    (⟨[], .IORM_SOLID_COLOR⟩ : Ogre2IgnHlmsPbs).customizations = [] ∧
    ((⟨[], .IORM_SOLID_COLOR⟩ : Ogre2IgnHlmsPbs).getPassBufferSize 0 false
      false 0).value = 0 :=
  ⟨by decide, rfl,
   (getPassBufferSize_is_sum ⟨[], .IORM_SOLID_COLOR⟩ 0 false false 0).2.2 rfl⟩

/-- C13. The pass-buffer pointer is threaded through the listeners in
registration order: with no listeners the caller's pointer is returned and no
listener is called; with a further listener registered last, that listener
receives the pointer returned for the listeners before it and the result is
the pointer it returns; and the constructor registers the
spherical-clip-min-distance listener first and the terra-shadows listener
second, so the result is the terra-shadows result on the spherical-clip
result on the caller's pointer. -/
theorem preparePassBuffer_threads_pointer (mode : IgnOgreRenderingMode)
    (_shadowNode : Nat) (_casterPass _dualParaboloid : Bool)
    (_sceneManager _passBufferPtr : Nat) :
    ((⟨[], mode⟩ : Ogre2IgnHlmsPbs).preparePassBuffer _shadowNode _casterPass
        _dualParaboloid _sceneManager _passBufferPtr =
      ⟨[], _passBufferPtr⟩) ∧
    (∀ (ls : List HlmsListener) (last : HlmsListener),
      (⟨ls ++ [last], mode⟩ : Ogre2IgnHlmsPbs).preparePassBuffer _shadowNode
          _casterPass _dualParaboloid _sceneManager _passBufferPtr =
        let before := (⟨ls, mode⟩ : Ogre2IgnHlmsPbs).preparePassBuffer
          _shadowNode _casterPass _dualParaboloid _sceneManager _passBufferPtr
        ⟨before.effects ++ [.listener last.id
            (.preparePassBuffer _shadowNode _casterPass _dualParaboloid
              _sceneManager before.value)],
         last.preparePassBuffer _shadowNode _casterPass _dualParaboloid
            _sceneManager before.value⟩) ∧
    (∀ spherical terra : HlmsListener,
      (Ogre2IgnHlmsPbs.new mode spherical terra).customizations =
        [spherical, terra] ∧
      ((Ogre2IgnHlmsPbs.new mode spherical terra).preparePassBuffer _shadowNode
          _casterPass _dualParaboloid _sceneManager _passBufferPtr).value =
        terra.preparePassBuffer _shadowNode _casterPass _dualParaboloid
          _sceneManager
          (spherical.preparePassBuffer _shadowNode _casterPass _dualParaboloid
            _sceneManager _passBufferPtr) ∧
      ((Ogre2IgnHlmsPbs.new mode spherical terra).preparePassBuffer _shadowNode
          _casterPass _dualParaboloid _sceneManager _passBufferPtr).effects =
        [.listener spherical.id
          (.preparePassBuffer _shadowNode _casterPass _dualParaboloid
            _sceneManager _passBufferPtr),
         .listener terra.id
          (.preparePassBuffer _shadowNode _casterPass _dualParaboloid
            _sceneManager
            (spherical.preparePassBuffer _shadowNode _casterPass _dualParaboloid
              _sceneManager _passBufferPtr))]) := by
  refine ⟨rfl, ?_, ?_⟩
  · intro ls last
    simp only [Ogre2IgnHlmsPbs.preparePassBuffer, List.foldl_append,
      List.foldl_cons, List.foldl_nil]
  · intro spherical terra
    exact ⟨rfl, rfl, rfl⟩

theorem preparePassHash_eq (self : Ogre2IgnHlmsPbs) (_shadowNode : Nat)
    (_casterPass _dualParaboloid : Bool) (_sceneManager _hlms : Nat) :
    self.preparePassHash _shadowNode _casterPass _dualParaboloid _sceneManager
        _hlms =
      (if _casterPass = false ∧ self.ignOgreRenderingMode = .IORM_SOLID_COLOR then
        [HlmsEffect.hlmsSetProperty _hlms "ign_render_solid_color" 1]
       else []) ++
      self.customizations.map (fun l => HlmsEffect.listener l.id
        (.preparePassHash _shadowNode _casterPass _dualParaboloid _sceneManager
          _hlms)) := by
  unfold Ogre2IgnHlmsPbs.preparePassHash
  rw [foldl_append_effect]
  cases _casterPass <;> simp

/-- C14. The effects of `preparePassHash` are: first the setting of
`ign_render_solid_color` to 1 on the HLMS passed in, present if and only if
the pass is not a caster pass and the mode is `IORM_SOLID_COLOR`; then one
call of `preparePassHash` with the same arguments on every listener, in
registration order. The class sets no other property and no other value. -/
theorem preparePassHash_sets_solid_color_iff (self : Ogre2IgnHlmsPbs)
    (_shadowNode : Nat) (_casterPass _dualParaboloid : Bool)
    (_sceneManager _hlms : Nat) :
    (∃ own : List HlmsEffect,
      self.preparePassHash _shadowNode _casterPass _dualParaboloid _sceneManager
          _hlms =
        own ++ self.customizations.map (fun l => HlmsEffect.listener l.id
          (.preparePassHash _shadowNode _casterPass _dualParaboloid
            _sceneManager _hlms)) ∧
      (own = [HlmsEffect.hlmsSetProperty _hlms "ign_render_solid_color" 1] ∨
        own = [])) ∧
    (HlmsEffect.hlmsSetProperty _hlms "ign_render_solid_color" 1 ∈
        self.preparePassHash _shadowNode _casterPass _dualParaboloid
          _sceneManager _hlms ↔
      (_casterPass = false ∧ self.ignOgreRenderingMode = .IORM_SOLID_COLOR)) ∧
    (∀ h key value, HlmsEffect.hlmsSetProperty h key value ∈
        self.preparePassHash _shadowNode _casterPass _dualParaboloid
          _sceneManager _hlms →
      h = _hlms ∧ key = "ign_render_solid_color" ∧ value = 1) := by
  rw [preparePassHash_eq]
  by_cases hc : _casterPass = false ∧ self.ignOgreRenderingMode = .IORM_SOLID_COLOR
  · rw [if_pos hc]
    refine ⟨⟨_, rfl, Or.inl rfl⟩, ?_, ?_⟩
    · simp [hc]
    · intro h key value hmem
      simpa using hmem
  · rw [if_neg hc]
    refine ⟨⟨_, rfl, Or.inr rfl⟩, ?_, ?_⟩
    · simp [hc]
    · intro h key value hmem
      simp at hmem

theorem hlmsTypeChanged_eq (self : Ogre2IgnHlmsPbs) (_casterPass : Bool)
    (_commandBuffer _datablock : Nat) :
    self.hlmsTypeChanged _casterPass _commandBuffer _datablock =
      self.customizations.map (fun l => HlmsEffect.listener l.id
        (.hlmsTypeChanged _casterPass _commandBuffer _datablock)) ++
      (if _casterPass = false ∧ self.ignOgreRenderingMode = .IORM_SOLID_COLOR then
        [HlmsEffect.BindObjectDataBuffer _commandBuffer kPerObjectDataBufferSlot]
       else []) := by
  unfold Ogre2IgnHlmsPbs.hlmsTypeChanged
  simp only [foldl_append_effect, List.nil_append]
  by_cases h1 : _casterPass = true
  · simp [h1]
  · by_cases h2 : self.ignOgreRenderingMode = .IORM_SOLID_COLOR
    · simp [h1, h2]
    · simp [h1, h2]

/-- C15. The effects of `hlmsTypeChanged` are: one call of `hlmsTypeChanged`
with the same arguments on every listener, in registration order, in every
case; and after them the binding of the per-object data buffer on the command
buffer passed in, present if and only if the pass is not a caster pass and
the mode is `IORM_SOLID_COLOR`. -/
theorem hlmsTypeChanged_notifies_then_binds_iff (self : Ogre2IgnHlmsPbs)
    (_casterPass : Bool) (_commandBuffer _datablock : Nat) :
    (∃ after : List HlmsEffect,
      self.hlmsTypeChanged _casterPass _commandBuffer _datablock =
        self.customizations.map (fun l => HlmsEffect.listener l.id
          (.hlmsTypeChanged _casterPass _commandBuffer _datablock)) ++ after ∧
      (after = [HlmsEffect.BindObjectDataBuffer _commandBuffer
          kPerObjectDataBufferSlot] ∨ after = [])) ∧
    ((∃ slot, HlmsEffect.BindObjectDataBuffer _commandBuffer slot ∈
        self.hlmsTypeChanged _casterPass _commandBuffer _datablock) ↔
      (_casterPass = false ∧ self.ignOgreRenderingMode = .IORM_SOLID_COLOR)) := by
  rw [hlmsTypeChanged_eq]
  by_cases hc : _casterPass = false ∧ self.ignOgreRenderingMode = .IORM_SOLID_COLOR
  · rw [if_pos hc]
    refine ⟨⟨_, rfl, Or.inl rfl⟩, ?_⟩
    simp [hc]
  · rw [if_neg hc]
    refine ⟨⟨_, rfl, Or.inr rfl⟩, ?_⟩
    simp [hc]

/-- Witness of C13: on the object built by the constructor from the two
sample listeners (pointer plus 4, then pointer doubled), the caller's
pointer 100 comes back as 208 and the second listener receives 104. -/
theorem preparePassBuffer_threads_pointer_witness :
    sampleHlms.customizations = [sphericalClipListener, terraShadowsListener] ∧
    (sampleHlms.preparePassBuffer 0 false false 0 100).value = 208 ∧
    (sampleHlms.preparePassBuffer 0 false false 0 100).effects =
      [.listener 1 (.preparePassBuffer 0 false false 0 100),
       .listener 2 (.preparePassBuffer 0 false false 0 104)] :=
  (preparePassBuffer_threads_pointer .IORM_SOLID_COLOR 0 false false 0 100).2.2
    sphericalClipListener terraShadowsListener

/-- Witness of C14: in solid-colour mode on a non-caster pass the property is
set before the two listener calls; on a caster pass only the two listener
calls happen. -/
theorem preparePassHash_sets_solid_color_iff_witness :
    HlmsEffect.hlmsSetProperty 9 "ign_render_solid_color" 1 ∈
      sampleHlms.preparePassHash 0 false false 0 9 ∧
    sampleHlms.preparePassHash 0 false false 0 9 =
      [.hlmsSetProperty 9 "ign_render_solid_color" 1,
       .listener 1 (.preparePassHash 0 false false 0 9),
       .listener 2 (.preparePassHash 0 false false 0 9)] ∧
    sampleHlms.preparePassHash 0 true false 0 9 =
      [.listener 1 (.preparePassHash 0 true false 0 9),
       .listener 2 (.preparePassHash 0 true false 0 9)] :=
  ⟨(preparePassHash_sets_solid_color_iff sampleHlms 0 false false 0 9).2.1.mpr
      ⟨rfl, rfl⟩,
   rfl, rfl⟩

/-- Witness of C15: in solid-colour mode on a non-caster pass the two
listener calls are followed by the binding; on a caster pass they are not. -/
theorem hlmsTypeChanged_notifies_then_binds_iff_witness :
    (∃ slot, HlmsEffect.BindObjectDataBuffer 7 slot ∈
      sampleHlms.hlmsTypeChanged false 7 3) ∧
    sampleHlms.hlmsTypeChanged false 7 3 =
      [.listener 1 (.hlmsTypeChanged false 7 3),
       .listener 2 (.hlmsTypeChanged false 7 3),
       .BindObjectDataBuffer 7 4] ∧
    sampleHlms.hlmsTypeChanged true 7 3 =
      [.listener 1 (.hlmsTypeChanged true 7 3),
       .listener 2 (.hlmsTypeChanged true 7 3)] :=
  ⟨(hlmsTypeChanged_notifies_then_binds_iff sampleHlms false 7 3).2.mpr
      ⟨rfl, rfl⟩,
   rfl, rfl⟩

end ListenerChainProofs

section SlotProofs

open Ogre2IgnHlmsPbs

/-- C16. The per-object data buffer slot is the constant 4 everywhere: the
value published as property `IgnPerObjectDataSlot`, every slot passed to
`BindObjectDataBuffer` by `hlmsTypeChanged`, and every slot passed to
`MapObjectDataBufferFor` by `fillBuffersForV1` and `fillBuffersForV2`; and
in solid-colour mode on a non-caster pass these calls do happen with slot
4. -/
theorem perObjectDataSlot_is_four :
    kPerObjectDataBufferSlot = 4 ∧
    (∀ self : Ogre2IgnHlmsPbs,
      self.notifyPropertiesMergedPreGenerationStep =
        [.baseNotifyPropertiesMergedPreGenerationStep,
         .setProperty "IgnPerObjectDataSlot" 4]) ∧
    (∀ (self : Ogre2IgnHlmsPbs) (_casterPass : Bool)
        (_commandBuffer _datablock cb slot : Nat),
      HlmsEffect.BindObjectDataBuffer cb slot ∈
          self.hlmsTypeChanged _casterPass _commandBuffer _datablock →
        slot = 4) ∧
    (∀ (mode : IgnOgreRenderingMode) (baseFill : Except OgreException Nat)
        (getCustomParameter : Nat → Except OgreException Vector4)
        (_casterPass : Bool) (idx slot : Nat),
      (HlmsEffect.MapObjectDataBufferFor idx slot ∈
          (fillBuffersForV1 mode baseFill getCustomParameter _casterPass).effects →
        slot = 4) ∧
      (HlmsEffect.MapObjectDataBufferFor idx slot ∈
          (fillBuffersForV2 mode baseFill getCustomParameter _casterPass).effects →
        slot = 4)) ∧
    (∀ (ls : List HlmsListener) (_commandBuffer _datablock : Nat),
      HlmsEffect.BindObjectDataBuffer _commandBuffer 4 ∈
        (⟨ls, .IORM_SOLID_COLOR⟩ : Ogre2IgnHlmsPbs).hlmsTypeChanged false
          _commandBuffer _datablock) ∧
    (∀ (instanceIdx : Nat)
        (getCustomParameter : Nat → Except OgreException Vector4) (p : Vector4),
      getCustomParameter 1 = .ok p →
      HlmsEffect.MapObjectDataBufferFor instanceIdx 4 ∈
        (fillBuffersForV1 .IORM_SOLID_COLOR (.ok instanceIdx) getCustomParameter
          false).effects ∧
      HlmsEffect.MapObjectDataBufferFor instanceIdx 4 ∈
        (fillBuffersForV2 .IORM_SOLID_COLOR (.ok instanceIdx) getCustomParameter
          false).effects) := by
  refine ⟨rfl, fun _ => rfl, ?_, ?_, ?_, ?_⟩
  · intro self _casterPass _commandBuffer _datablock cb slot hmem
    rw [hlmsTypeChanged_eq] at hmem
    by_cases hc : _casterPass = false ∧
        self.ignOgreRenderingMode = .IORM_SOLID_COLOR
    · rw [if_pos hc] at hmem
      simp [kPerObjectDataBufferSlot] at hmem
      exact hmem.2
    · rw [if_neg hc] at hmem
      simp at hmem
  · intro mode baseFill getCustomParameter _casterPass idx slot
    constructor
    · intro hmem
      unfold fillBuffersForV1 at hmem
      cases baseFill with
      | error ex => simp at hmem
      | ok instanceIdx =>
        simp only [] at hmem
        split_ifs at hmem with hc
        · cases hg : getCustomParameter 1 with
          | error ex => rw [hg] at hmem; simp at hmem
          | ok p =>
            rw [hg] at hmem
            simp [kPerObjectDataBufferSlot] at hmem
            exact hmem.2
        · simp at hmem
    · intro hmem
      unfold fillBuffersForV2 at hmem
      cases baseFill with
      | error ex => simp at hmem
      | ok instanceIdx =>
        simp only [] at hmem
        split_ifs at hmem with hc
        · cases hg : getCustomParameter 1 with
          | error ex =>
            rw [hg] at hmem
            simp only [] at hmem
            split_ifs at hmem <;> simp at hmem
          | ok p =>
            rw [hg] at hmem
            simp [kPerObjectDataBufferSlot] at hmem
            exact hmem.2
        · simp at hmem
  · intro ls _commandBuffer _datablock
    rw [hlmsTypeChanged_eq]
    simp [kPerObjectDataBufferSlot]
  · intro instanceIdx getCustomParameter p hp
    simp [fillBuffersForV1, fillBuffersForV2, hp, kPerObjectDataBufferSlot]

/-- Witness of C16 on the sample object and a renderable whose custom
parameter 1 is `(1, 2, 3, 4)`: the binding and both mappings use slot 4. -/
theorem perObjectDataSlot_is_four_witness :
    sampleCustomParameter 1 = .ok ⟨1, 2, 3, 4⟩ ∧
    HlmsEffect.MapObjectDataBufferFor 5 4 ∈
      (fillBuffersForV1 .IORM_SOLID_COLOR (.ok 5) sampleCustomParameter
        false).effects ∧
    HlmsEffect.MapObjectDataBufferFor 5 4 ∈
      (fillBuffersForV2 .IORM_SOLID_COLOR (.ok 5) sampleCustomParameter
        false).effects ∧
    HlmsEffect.BindObjectDataBuffer 7 4 ∈ sampleHlms.hlmsTypeChanged false 7 3 :=
  ⟨rfl,
   (perObjectDataSlot_is_four.2.2.2.2.2 5 sampleCustomParameter ⟨1, 2, 3, 4⟩ rfl).1,
   (perObjectDataSlot_is_four.2.2.2.2.2 5 sampleCustomParameter ⟨1, 2, 3, 4⟩ rfl).2,
   perObjectDataSlot_is_four.2.2.2.2.1
     [sphericalClipListener, terraShadowsListener] 7 3⟩

end SlotProofs

end GzRendering
